import Mathlib

/-!
Verification of the UI Synchronization and Session Control Engine
(browser_utils/page_controller.py).

The development is a shallow embedding of the PageController methods.
The browser page is modelled as explicit state; Playwright interactions
are modelled as events appended to a trace, with an environment record
deciding the outcome of each interaction (visibility waits, reads, fill
effects, click failures).  Python exceptions are modelled by an error
type threaded through each routine; try/except blocks become explicit
handlers.  Floating point values are modelled as rationals; the
comparisons with the literal epsilons 0.001 and 1e-9 from the source are
implemented by exact integer cross multiplication (definitionally
computable) and related to the usual absolute-difference statements by
the lemmas absDiffLt_iff and absDiffGt_iff below.
-/

/-- Model of the Python exceptions that the page controller can raise:
the distinguished abandonment error (ClientDisconnectedError), Playwright
timeouts, ValueError/TypeError from numeric conversions, and any other
exception. -/
inductive PyErr where
  | clientDisconnected (stage : String)
  | timeoutError (what : String)
  | valueError (what : String)
  | otherError (what : String)
deriving DecidableEq

/-- A value written into a UI control. -/
inductive PVal where
  | num (q : ℚ)
  | intv (n : ℤ)
  | str (s : String)
deriving DecidableEq

/-- One observable interaction of the controller: UI reads and writes,
waits, pacing sleeps, diagnostic snapshots, log lines, and disconnect
checkpoints (recording the stage label and the predicate result). -/
inductive Ev where
  | waitVisible (ctrl : String)
  | waitEnabled (ctrl : String)
  | waitHidden (ctrl : String)
  | readValue (ctrl : String)
  | readAttr (ctrl : String) (attr : String)
  | fillValue (ctrl : String) (v : PVal)
  | clickCtrl (ctrl : String)
  | pressKey (ctrl : String) (key : String)
  | focusCtrl (ctrl : String)
  | sleepMs (ms : Nat)
  | snapshot (tag : String)
  | logWarn (tag : String)
  | logErr (tag : String)
  | checkpoint (stage : String) (disconnected : Bool)
  | verifyResult (ok : Bool)
deriving DecidableEq

/-- An event that mutates the state of the target application UI. -/
def Ev.isUiMutation : Ev → Bool
  | .fillValue _ _ => true
  | .clickCtrl _ => true
  | .pressKey _ _ => true
  | _ => false

/-- Any DOM interaction: mutations plus reads, waits and focusing. -/
def Ev.isUiInteraction : Ev → Bool
  | .fillValue _ _ => true
  | .clickCtrl _ => true
  | .pressKey _ _ => true
  | .readValue _ => true
  | .readAttr _ _ => true
  | .waitVisible _ => true
  | .waitEnabled _ => true
  | .waitHidden _ => true
  | .focusCtrl _ => true
  | _ => false

/-- A checkpoint at which the disconnect predicate returned true. -/
def Ev.isTrueCheckpoint : Ev → Bool
  | .checkpoint _ true => true
  | _ => false

/-- No UI mutation occurs anywhere after a positive disconnect check. -/
def noMutAfterTrue : List Ev → Bool
  | [] => true
  | .checkpoint _ true :: rest => rest.all (fun e => !e.isUiMutation)
  | _ :: rest => noMutAfterTrue rest

/-- Python str.strip on a character list. -/
def stripChars (cs : List Char) : List Char :=
  ((cs.dropWhile Char.isWhitespace).reverse.dropWhile Char.isWhitespace).reverse

/-- Python str.strip (whitespace trimming), implemented structurally so
that it is definitionally computable. -/
def pyStrip (s : String) : String := String.mk (stripChars s.data)

/-- Python str.lower, character by character. -/
def pyLower (s : String) : String := String.mk (s.data.map Char.toLower)

/-- Whether the needle occurs as a contiguous substring (Python `in`). -/
def subOccurs (needle : List Char) : List Char → Bool
  | [] => needle.isEmpty
  | c :: rest => needle.isPrefixOf (c :: rest) || subOccurs needle rest

/-- Python substring containment test on strings. -/
def pyContains (hay needle : String) : Bool := subOccurs needle.data hay.data

/-- Valid digit-and-underscore tail for Python int parsing: underscores
may only appear singly, between digits. -/
def pyDigitsOk : List Char → Bool
  | [] => true
  | '_' :: d :: rest => d.isDigit && pyDigitsOk (d :: rest)
  | '_' :: [] => false
  | c :: rest => c.isDigit && pyDigitsOk rest

/-- A nonempty digit string (with legal underscores) starting in a digit. -/
def pyIntCore (cs : List Char) : Bool :=
  match cs with
  | [] => false
  | c :: _ => c.isDigit && pyDigitsOk cs

/-- Numeric value of a digit string, skipping underscores. -/
def pyDigitsVal (cs : List Char) : ℤ :=
  cs.foldl (fun acc c => if c.isDigit then acc * 10 + (c.toNat - 48 : ℕ) else acc) 0

/-- Python int(str): optional surrounding whitespace, optional sign,
then digits (single underscores allowed between digits); None on
failure (ValueError). -/
def pyIntOfString (s : String) : Option ℤ :=
  match stripChars s.data with
  | '+' :: rest => if pyIntCore rest then some (pyDigitsVal rest) else none
  | '-' :: rest => if pyIntCore rest then some (-(pyDigitsVal rest)) else none
  | cs => if pyIntCore cs then some (pyDigitsVal cs) else none

/-- The epsilon 0.001 used for float comparisons of the temperature. -/
def eps3 : ℚ := ⟨1, 1000, by norm_num, by simp⟩

/-- The epsilon 1e-9 used for float comparisons of top_p. -/
def eps9 : ℚ := ⟨1, 1000000000, by norm_num, by simp⟩

/-- Exact test for the absolute difference of two rationals being below
an epsilon, by integer cross multiplication (definitionally computable,
unlike rational subtraction). -/
def absDiffLt (a b e : ℚ) : Bool :=
  decide (((a.num * b.den - b.num * a.den).natAbs : ℤ) * (e.den : ℤ) <
    e.num * ((a.den : ℤ) * (b.den : ℤ)))

/-- Exact test for the absolute difference exceeding an epsilon. -/
def absDiffGt (a b e : ℚ) : Bool :=
  decide (e.num * ((a.den : ℤ) * (b.den : ℤ)) <
    ((a.num * b.den - b.num * a.den).natAbs : ℤ) * (e.den : ℤ))

theorem sub_eq_div_form (a b : ℚ) :
    a - b = ((a.num * b.den - b.num * a.den : ℤ) : ℚ) / ((a.den : ℚ) * (b.den : ℚ)) := by
  have ha : (a.den : ℚ) ≠ 0 := by exact_mod_cast a.den_nz
  have hb : (b.den : ℚ) ≠ 0 := by exact_mod_cast b.den_nz
  calc a - b = (a.num : ℚ) / (a.den : ℚ) - (b.num : ℚ) / (b.den : ℚ) := by
        rw [Rat.num_div_den, Rat.num_div_den]
    _ = ((a.num : ℚ) * b.den - (a.den : ℚ) * b.num) / ((a.den : ℚ) * (b.den : ℚ)) :=
        div_sub_div _ _ ha hb
    _ = ((a.num * b.den - b.num * a.den : ℤ) : ℚ) / ((a.den : ℚ) * (b.den : ℚ)) := by
        push_cast; ring_nf

theorem div_lt_rat_iff (x : ℤ) (d : ℕ) (hd : (0 : ℚ) < (d : ℚ)) (e : ℚ) :
    (x : ℚ) / (d : ℚ) < e ↔ x * (e.den : ℤ) < e.num * (d : ℤ) := by
  have he : (0 : ℚ) < (e.den : ℚ) := by exact_mod_cast e.pos
  rw [div_lt_iff₀ hd]
  nth_rewrite 1 [← Rat.num_div_den e]
  rw [div_mul_eq_mul_div, lt_div_iff₀ he]
  constructor
  · intro h; exact_mod_cast h
  · intro h; exact_mod_cast h

theorem rat_lt_div_iff (x : ℤ) (d : ℕ) (hd : (0 : ℚ) < (d : ℚ)) (e : ℚ) :
    e < (x : ℚ) / (d : ℚ) ↔ e.num * (d : ℤ) < x * (e.den : ℤ) := by
  have he : (0 : ℚ) < (e.den : ℚ) := by exact_mod_cast e.pos
  rw [lt_div_iff₀ hd]
  nth_rewrite 1 [← Rat.num_div_den e]
  rw [div_mul_eq_mul_div, div_lt_iff₀ he]
  constructor
  · intro h; exact_mod_cast h
  · intro h; exact_mod_cast h

theorem abs_sub_as_div (a b : ℚ) :
    |a - b| = (((a.num * b.den - b.num * a.den).natAbs : ℤ) : ℚ) / ((a.den * b.den : ℕ) : ℚ) := by
  have ha : (0 : ℚ) < (a.den : ℚ) := by exact_mod_cast a.pos
  have hb : (0 : ℚ) < (b.den : ℚ) := by exact_mod_cast b.pos
  rw [sub_eq_div_form a b, abs_div, abs_of_pos (mul_pos ha hb)]
  rw [show |((a.num * b.den - b.num * a.den : ℤ) : ℚ)| =
      (((a.num * b.den - b.num * a.den).natAbs : ℤ) : ℚ) by
        rw [← Int.cast_abs, Int.abs_eq_natAbs]]
  push_cast
  ring_nf

theorem absDiffLt_iff (a b e : ℚ) : absDiffLt a b e = true ↔ |a - b| < e := by
  have ha : (0 : ℚ) < (a.den : ℚ) := by exact_mod_cast a.pos
  have hb : (0 : ℚ) < (b.den : ℚ) := by exact_mod_cast b.pos
  have hd : (0 : ℚ) < ((a.den * b.den : ℕ) : ℚ) := by push_cast; exact mul_pos ha hb
  rw [absDiffLt, decide_eq_true_iff, abs_sub_as_div a b,
    div_lt_rat_iff _ _ hd]
  push_cast
  constructor <;> intro h <;> linarith

theorem absDiffGt_iff (a b e : ℚ) : absDiffGt a b e = true ↔ e < |a - b| := by
  have ha : (0 : ℚ) < (a.den : ℚ) := by exact_mod_cast a.pos
  have hb : (0 : ℚ) < (b.den : ℚ) := by exact_mod_cast b.pos
  have hd : (0 : ℚ) < ((a.den * b.den : ℕ) : ℚ) := by push_cast; exact mul_pos ha hb
  rw [absDiffGt, decide_eq_true_iff, abs_sub_as_div a b,
    rat_lt_div_iff _ _ hd]
  push_cast
  constructor <;> intro h <;> linarith

theorem eps3_val : eps3 = 1 / 1000 := by
  have h1 : eps3.num = 1 := rfl
  have h2 : eps3.den = 1000 := rfl
  rw [← Rat.num_div_den eps3, h1, h2]
  norm_num

theorem eps9_val : eps9 = 1 / 1000000000 := by
  have h1 : eps9.num = 1 := rfl
  have h2 : eps9.den = 1000000000 := rfl
  rw [← Rat.num_div_den eps9, h1, h2]
  norm_num

/-- The configuration surface consumed by the page controller (values of
the config module referenced by page_controller.py). -/
structure Config where
  DEFAULT_TEMPERATURE : ℚ
  DEFAULT_MAX_OUTPUT_TOKENS : ℤ
  DEFAULT_TOP_P : ℚ
  ENABLE_URL_CONTEXT : Bool
  ENABLE_THINKING_BUDGET : Bool
  DEFAULT_THINKING_BUDGET : ℤ
  ENABLE_GOOGLE_SEARCH : Bool

/-- The reasoning_effort request value: absent (or None), a Python int,
a Python str, or a value of any other type. -/
inductive Effort where
  | noneVal
  | intVal (n : ℤ)
  | strVal (s : String)
  | otherVal
deriving DecidableEq

/-- The symbolic effort tiers of _parse_thinking_budget. -/
def effortMap (s : String) : Option ℤ :=
  if s = "low" then some 1000
  else if s = "medium" then some 8000
  else if s = "high" then some 24000
  else none

/-- Embedding of PageController._parse_thinking_budget. -/
def parse_thinking_budget (cfg : Config) (reasoning_effort : Effort) : Option ℤ :=
  match reasoning_effort with
  | .noneVal => some cfg.DEFAULT_THINKING_BUDGET
  | .intVal n => some n
  | .strVal s =>
      if pyLower s = "none" then some cfg.DEFAULT_THINKING_BUDGET
      else
        match effortMap (pyLower s) with
        | some v => some v
        | none => pyIntOfString s
  | .otherVal => none

/-- The stop request value: absent maps to the configured default before
the call, so here: None, a single string, or a list of strings
(non-string list entries are dropped by the source and are not
modelled). -/
inductive StopParam where
  | noneVal
  | strVal (s : String)
  | listVal (l : List String)
deriving DecidableEq

/-- The normalized stop-sequence list built by _adjust_stop_sequences:
trimmed, non-empty, deduplicated.  The Python code builds a set; the
list order here stands for the unspecified set iteration order. -/
def normalizeStopsList (sp : StopParam) : List String :=
  match sp with
  | .noneVal => []
  | .strVal s => if pyStrip s = "" then [] else [pyStrip s]
  | .listVal l => ((l.map pyStrip).filter (fun t => t ≠ "")).dedup

/-- The normalized stop-sequence set (normalized_requested_stops). -/
def normalizeStops (sp : StopParam) : Finset String :=
  (normalizeStopsList sp).toFinset

/-- One entry of the request tools list: either not a dict (skipped by
the source), or a dict with an optional google_search_retrieval key
(gsr = present and not None) and the value of
tool.get("function", dict()).get("name"). -/
inductive ToolEntry where
  | nonDict
  | dict (gsr : Bool) (function_name : Option String)
deriving DecidableEq

/-- The tools request value: key absent, present as None, a list, or a
non-list value. -/
inductive ToolsParam where
  | absent
  | noneVal
  | listVal (l : List ToolEntry)
  | nonList
deriving DecidableEq

/-- Whether one tools entry is a recognized Google-search directive. -/
def toolHasGoogleSearch : ToolEntry → Bool
  | .nonDict => false
  | .dict gsr fn => gsr || fn == some "googleSearch"

/-- Embedding of PageController._should_enable_google_search. -/
def should_enable_google_search (cfg : Config) (tools : ToolsParam) : Bool :=
  match tools with
  | .absent => cfg.ENABLE_GOOGLE_SEARCH
  | .noneVal => cfg.ENABLE_GOOGLE_SEARCH
  | .listVal l => l.any toolHasGoogleSearch
  | .nonList => false

/-- A supported_max_output_tokens catalog value: an int, or a value that
int() cannot parse. -/
inductive TokVal where
  | intVal (n : ℤ)
  | bad
deriving DecidableEq

/-- One model descriptor of the caller-supplied catalog. -/
structure ModelEntry where
  id : String
  supported_max_output_tokens : Option TokVal
deriving DecidableEq

/-- The max_output_tokens upper bound computed by _adjust_max_tokens:
the catalog value when the model id is truthy, the list non-empty, the
entry found, and its value a positive parseable int; the hard default
65536 otherwise. -/
def maxValForTokens (model_id_to_use : String) (parsed_model_list : List ModelEntry) : ℤ :=
  if model_id_to_use ≠ "" ∧ parsed_model_list ≠ [] then
    match parsed_model_list.find? (fun m => m.id == model_id_to_use) with
    | some m =>
      match m.supported_max_output_tokens with
      | some (.intVal n) => if n > 0 then n else 65536
      | some .bad => 65536
      | none => 65536
    | none => 65536
  else 65536

/-- The clamp applied to the requested temperature. -/
def clampTemp (t : ℚ) : ℚ := max 0 (min 2 t)

/-- The clamp applied to the requested top_p. -/
def clampTopP (t : ℚ) : ℚ := max 0 (min 1 t)

/-- The clamp applied to the requested max_output_tokens. -/
def clampMaxTokens (modelId : String) (models : List ModelEntry) (m : ℤ) : ℤ :=
  max 1 (min (maxValForTokens modelId models) m)

/-- The live state of the parameter controls of the target page. -/
structure ParamsUi where
  tempValue : Option ℚ
  maxTokensValue : Option ℤ
  topPValue : Option ℚ
  chips : List String
  thinkToggleChecked : Bool
  budgetValue : Option ℤ
  searchChecked : Bool
  urlCtxChecked : Bool
  toolsExpanded : Bool
deriving DecidableEq

/-- The per-session parameter cache (page_params_cache): exactly the
three keys the source ever writes. -/
structure ParamsCache where
  temperature : Option ℚ
  max_output_tokens : Option ℤ
  stop_sequences : Option (Finset String)
deriving DecidableEq

/-- Combined mutable state of a parameter-adjustment run. -/
structure ParamsSt where
  ui : ParamsUi
  cache : ParamsCache
deriving DecidableEq

/-- Result of a routine: outcome, final state, and emitted event trace.
State is preserved on error, as Python exceptions do not roll back
mutations. -/
abbrev POut := Except PyErr Unit × ParamsSt × List Ev

/-- Prepend one event to the trace of an outcome. -/
def withEv (e : Ev) (o : POut) : POut := (o.1, o.2.1, e :: o.2.2)

/-- Raise an exception (events are added by the surrounding context). -/
def pfail (e : PyErr) (st : ParamsSt) : POut := (.error e, st, [])

/-- Embedding of _check_disconnect followed by a continuation: if the
disconnect predicate is true at this stage, raise ClientDisconnectedError,
else continue. -/
def ckThen (pred : String → Bool) (stage : String) (st : ParamsSt) (k : ParamsSt → POut) : POut :=
  if pred stage then (.error (.clientDisconnected stage), st, [.checkpoint stage true])
  else withEv (.checkpoint stage false) (k st)

/-- Sequential composition: run the continuation only on success,
concatenating traces. -/
def pseq (o : POut) (k : ParamsSt → POut) : POut :=
  match o with
  | (.error e, st, tr) => (.error e, st, tr)
  | (.ok _, st, tr) =>
    match k st with
    | (r, st2, tr2) => (r, st2, tr ++ tr2)

/-- The try/except shape shared by the parameter routines: ValueError is
handled without re-raising; every other exception is handled and
re-raised only when it is the abandonment error.  Both handlers can
adjust the cache (eviction) and append diagnostic events. -/
def pwHandler (warnTr : List Ev) (body : POut) (valEvs : List Ev) (valAdj : ParamsSt → ParamsSt)
    (genEvs : List Ev) (genAdj : ParamsSt → ParamsSt) : POut :=
  match body with
  | (.ok _, st, tr) => (.ok (), st, warnTr ++ tr)
  | (.error e, st, tr) =>
    match e with
    | .valueError _ => (.ok (), valAdj st, warnTr ++ tr ++ valEvs)
    | .clientDisconnected m => (.error (.clientDisconnected m), genAdj st, warnTr ++ tr ++ genEvs)
    | _ => (.ok (), genAdj st, warnTr ++ tr ++ genEvs)

def setCacheTemp (v : ℚ) (st : ParamsSt) : ParamsSt :=
  { st with cache := { st.cache with temperature := some v } }

def popCacheTemp (st : ParamsSt) : ParamsSt :=
  { st with cache := { st.cache with temperature := none } }

def setUiTemp (v : Option ℚ) (st : ParamsSt) : ParamsSt :=
  { st with ui := { st.ui with tempValue := v } }

def setCacheMax (v : ℤ) (st : ParamsSt) : ParamsSt :=
  { st with cache := { st.cache with max_output_tokens := some v } }

def popCacheMax (st : ParamsSt) : ParamsSt :=
  { st with cache := { st.cache with max_output_tokens := none } }

def setUiMax (v : Option ℤ) (st : ParamsSt) : ParamsSt :=
  { st with ui := { st.ui with maxTokensValue := v } }

def setCacheStop (v : Finset String) (st : ParamsSt) : ParamsSt :=
  { st with cache := { st.cache with stop_sequences := some v } }

def popCacheStop (st : ParamsSt) : ParamsSt :=
  { st with cache := { st.cache with stop_sequences := none } }

def setUiTopP (v : Option ℚ) (st : ParamsSt) : ParamsSt :=
  { st with ui := { st.ui with topPValue := v } }

def dropFirstChip (st : ParamsSt) : ParamsSt :=
  { st with ui := { st.ui with chips := st.ui.chips.tail } }

def addChip (s : String) (st : ParamsSt) : ParamsSt :=
  { st with ui := { st.ui with chips := st.ui.chips ++ [s] } }

def setThinkToggle (b : Bool) (st : ParamsSt) : ParamsSt :=
  { st with ui := { st.ui with thinkToggleChecked := b } }

def setUiBudget (v : Option ℤ) (st : ParamsSt) : ParamsSt :=
  { st with ui := { st.ui with budgetValue := v } }

def setSearchToggle (b : Bool) (st : ParamsSt) : ParamsSt :=
  { st with ui := { st.ui with searchChecked := b } }

def setUrlCtx (b : Bool) (st : ParamsSt) : ParamsSt :=
  { st with ui := { st.ui with urlCtxChecked := b } }

def setToolsExpanded (st : ParamsSt) : ParamsSt :=
  { st with ui := { st.ui with toolsExpanded := true } }

/-- Environment for a parameter-adjustment run: the disconnect predicate
and the outcome of every Playwright interaction (whether waits succeed,
whether reads and clicks raise, and the value a control ends up holding
after a fill — possibly different from the written value, modelling
silently rejected writes). -/
structure ParamsEnv where
  pred : String → Bool
  tempVisible : Bool
  tempReadOk : Bool
  tempFillOk : Bool
  tempRead2Ok : Bool
  tempFillEffect : ℚ → Option ℚ
  maxVisible : Bool
  maxReadOk : Bool
  maxFillOk : Bool
  maxRead2Ok : Bool
  maxFillEffect : ℤ → Option ℤ
  chipClickFails : Nat → Bool
  stopVisible : Bool
  stopFillFails : String → Bool
  stopPressFails : String → Bool
  topPVisible : Bool
  topPReadOk : Bool
  topPFillOk : Bool
  topPRead2Ok : Bool
  topPFillEffect : ℚ → Option ℚ
  thinkToggleVisible : Bool
  thinkToggleAttrOk : Bool
  thinkToggleClickOk : Bool
  thinkToggleClickEffect : Bool → Bool
  budgetVisible : Bool
  budgetFillOk : Bool
  budgetReadOk : Bool
  budgetFillEffect : ℤ → Option ℤ
  searchToggleVisible : Bool
  searchAttrOk : Bool
  searchClickOk : Bool
  searchClickEffect : Bool → Bool
  urlAttrOk : Bool
  urlExpandClickOk : Bool
  urlCtxAttrOk : Bool
  urlCtxClickOk : Bool
  urlCtxClickEffect : Bool → Bool

/-- The clamping warning of _adjust_temperature. -/
def tempWarnTr (temperature : ℚ) : List Ev :=
  if clampTemp temperature ≠ temperature then [.logWarn "temperature_clamped"] else []

/-- The cache short-circuit test of _adjust_temperature (epsilon 0.001). -/
def tempCacheHit (c : ParamsCache) (clamped : ℚ) : Bool :=
  match c.temperature with
  | some v => absDiffLt v clamped eps3
  | none => false

/-- The try-block of _adjust_temperature: wait for visibility, read the
live value, skip the write when it already matches (recording it in the
cache), otherwise write, settle, re-read and verify; a verification
mismatch evicts the cache entry and captures a snapshot. -/
def adjust_temperature_body (env : ParamsEnv) (clamped : ℚ) (st : ParamsSt) : POut :=
  withEv (.waitVisible "TEMPERATURE_INPUT") <|
  if !env.tempVisible then pfail (.timeoutError "temperature visible") st else
  ckThen env.pred "温度调整 - 输入框可见后" st fun st =>
  withEv (.readValue "TEMPERATURE_INPUT") <|
  if !env.tempReadOk then pfail (.timeoutError "temperature read") st else
  ckThen env.pred "温度调整 - 读取输入框值后" st fun st =>
  match st.ui.tempValue with
  | none => pfail (.valueError "temperature float") st
  | some current =>
    if absDiffLt current clamped eps3 then (.ok (), setCacheTemp current st, [])
    else if !env.tempFillOk then pfail (.timeoutError "temperature fill") st
    else
      withEv (.fillValue "TEMPERATURE_INPUT" (.num clamped)) <|
      ckThen env.pred "温度调整 - 填充输入框后" (setUiTemp (env.tempFillEffect clamped) st) fun st =>
      withEv (.sleepMs 100) <|
      withEv (.readValue "TEMPERATURE_INPUT") <|
      if !env.tempRead2Ok then pfail (.timeoutError "temperature read2") st else
      match st.ui.tempValue with
      | none => pfail (.valueError "temperature float2") st
      | some newVal =>
        if absDiffLt newVal clamped eps3 then (.ok (), setCacheTemp newVal st, [])
        else (.ok (), popCacheTemp st,
          [.logWarn "temperature_verify_fail", .snapshot "temperature_verify_fail"])

/-- Embedding of PageController._adjust_temperature. -/
def adjust_temperature (env : ParamsEnv) (temperature : ℚ) (st : ParamsSt) : POut :=
  if tempCacheHit st.cache (clampTemp temperature) then (.ok (), st, tempWarnTr temperature)
  else
    pwHandler (tempWarnTr temperature) (adjust_temperature_body env (clampTemp temperature) st)
      [.logErr "temperature_value_error", .snapshot "temperature_value_error"] popCacheTemp
      [.logErr "temperature_error", .snapshot "temperature_playwright_error"] popCacheTemp

/-- The clamping warning of _adjust_max_tokens. -/
def maxWarnTr (modelId : String) (models : List ModelEntry) (m : ℤ) : List Ev :=
  if clampMaxTokens modelId models m ≠ m then [.logWarn "max_tokens_clamped"] else []

/-- The cache short-circuit test of _adjust_max_tokens (exact equality). -/
def maxCacheHit (c : ParamsCache) (clamped : ℤ) : Bool :=
  match c.max_output_tokens with
  | some v => v == clamped
  | none => false

/-- The try-block of _adjust_max_tokens. -/
def adjust_max_tokens_body (env : ParamsEnv) (clamped : ℤ) (st : ParamsSt) : POut :=
  withEv (.waitVisible "MAX_OUTPUT_TOKENS") <|
  if !env.maxVisible then pfail (.timeoutError "max_tokens visible") st else
  ckThen env.pred "最大输出Token调整 - 输入框可见后" st fun st =>
  withEv (.readValue "MAX_OUTPUT_TOKENS") <|
  if !env.maxReadOk then pfail (.timeoutError "max_tokens read") st else
  match st.ui.maxTokensValue with
  | none => pfail (.valueError "max_tokens int") st
  | some current =>
    if current = clamped then (.ok (), setCacheMax current st, [])
    else if !env.maxFillOk then pfail (.timeoutError "max_tokens fill") st
    else
      withEv (.fillValue "MAX_OUTPUT_TOKENS" (.intv clamped)) <|
      ckThen env.pred "最大输出Token调整 - 填充输入框后" (setUiMax (env.maxFillEffect clamped) st) fun st =>
      withEv (.sleepMs 100) <|
      withEv (.readValue "MAX_OUTPUT_TOKENS") <|
      if !env.maxRead2Ok then pfail (.timeoutError "max_tokens read2") st else
      match st.ui.maxTokensValue with
      | none => pfail (.valueError "max_tokens int2") st
      | some newVal =>
        if newVal = clamped then (.ok (), setCacheMax newVal st, [])
        else (.ok (), popCacheMax st,
          [.logWarn "max_tokens_verify_fail", .snapshot "max_tokens_verify_fail"])

/-- Embedding of PageController._adjust_max_tokens. -/
def adjust_max_tokens (env : ParamsEnv) (max_tokens : ℤ) (modelId : String)
    (models : List ModelEntry) (st : ParamsSt) : POut :=
  if maxCacheHit st.cache (clampMaxTokens modelId models max_tokens) then
    (.ok (), st, maxWarnTr modelId models max_tokens)
  else
    pwHandler (maxWarnTr modelId models max_tokens)
      (adjust_max_tokens_body env (clampMaxTokens modelId models max_tokens) st)
      [.logErr "max_tokens_value_error", .snapshot "max_tokens_value_error"] popCacheMax
      [.logErr "max_tokens_error", .snapshot "max_tokens_error"] popCacheMax

/-- The cache short-circuit test of _adjust_stop_sequences (set
equality). -/
def stopCacheHit (c : ParamsCache) (normalized : Finset String) : Bool :=
  match c.stop_sequences with
  | some v => v == normalized
  | none => false

/-- The chip-removal loop of _adjust_stop_sequences: while remove
buttons remain and the removal ceiling is not reached, check the
disconnect guard, then click the first remove button; a click failure
breaks out of the loop (swallowed by the inner except).  The structural
fuel argument equals maxRemovals - removed at every call (established by
removeChipsLoop below), so the fuel-exhausted branch is never taken:
fuel only bounds the recursion so that runs evaluate definitionally. -/
def removeChipsGo (env : ParamsEnv) : Nat → Nat → Nat → ParamsSt → POut
  | fuel, removed, maxRemovals, st =>
    withEv (.readValue "MAT_CHIP_REMOVE") <|
    if st.ui.chips.length > 0 ∧ removed < maxRemovals then
      match fuel with
      | 0 => (.ok (), st, [])
      | fuel + 1 =>
        ckThen env.pred "停止序列清除 - 循环开始" st fun st2 =>
          if env.chipClickFails removed then (.ok (), st2, [])
          else
            withEv (.clickCtrl "MAT_CHIP_REMOVE") <|
            withEv (.sleepMs 150) <|
            removeChipsGo env fuel (removed + 1) maxRemovals (dropFirstChip st2)
    else (.ok (), st, [])

/-- The chip-removal loop entry point. -/
def removeChipsLoop (env : ParamsEnv) (removed maxRemovals : Nat) (st : ParamsSt) : POut :=
  removeChipsGo env (maxRemovals - removed) removed maxRemovals st

/-- The insertion pass of _adjust_stop_sequences: for each normalized
sequence, fill the input and press Enter, pacing with a settle sleep. -/
def insertStops (env : ParamsEnv) (seqs : List String) (st : ParamsSt) : POut :=
  match seqs with
  | [] => (.ok (), st, [])
  | s :: rest =>
    if env.stopFillFails s then pfail (.timeoutError "stop fill") st
    else
      withEv (.fillValue "STOP_SEQUENCE_INPUT" (.str s)) <|
      if env.stopPressFails s then pfail (.timeoutError "stop press") st
      else
        withEv (.pressKey "STOP_SEQUENCE_INPUT" "Enter") <|
        withEv (.sleepMs 200) <|
        insertStops env rest (addChip s st)

/-- The try-block of _adjust_stop_sequences: read the initial chip
count, run the removal loop (ceiling = initial count + 5), insert the
requested sequences when the normalized set is nonempty, then commit the
normalized set to the cache. -/
def adjust_stop_sequences_body (env : ParamsEnv) (sp : StopParam) (st : ParamsSt) : POut :=
  withEv (.readValue "MAT_CHIP_REMOVE") <|
  pseq (removeChipsLoop env 0 (st.ui.chips.length + 5) st) fun st2 =>
  pseq
    (if (normalizeStopsList sp).isEmpty then (.ok (), st2, [])
     else
       withEv (.waitVisible "STOP_SEQUENCE_INPUT") <|
       if !env.stopVisible then pfail (.timeoutError "stop visible") st2
       else insertStops env (normalizeStopsList sp) st2) fun st3 =>
  (.ok (), setCacheStop (normalizeStops sp) st3, [])

/-- Embedding of PageController._adjust_stop_sequences. -/
def adjust_stop_sequences (env : ParamsEnv) (stop_sequences : StopParam) (st : ParamsSt) : POut :=
  if stopCacheHit st.cache (normalizeStops stop_sequences) then (.ok (), st, [])
  else
    pwHandler [] (adjust_stop_sequences_body env stop_sequences st)
      [.logErr "stop_sequence_error", .snapshot "stop_sequence_error"] popCacheStop
      [.logErr "stop_sequence_error", .snapshot "stop_sequence_error"] popCacheStop

/-- The clamping warning of _adjust_top_p (only when the difference
exceeds 1e-9). -/
def topPWarnTr (top_p : ℚ) : List Ev :=
  if absDiffGt (clampTopP top_p) top_p eps9 then [.logWarn "top_p_clamped"] else []

/-- The try-block of _adjust_top_p (note: no cache is consulted). -/
def adjust_top_p_body (env : ParamsEnv) (clamped : ℚ) (st : ParamsSt) : POut :=
  withEv (.waitVisible "TOP_P_INPUT") <|
  if !env.topPVisible then pfail (.timeoutError "top_p visible") st else
  ckThen env.pred "Top P 调整 - 输入框可见后" st fun st =>
  withEv (.readValue "TOP_P_INPUT") <|
  if !env.topPReadOk then pfail (.timeoutError "top_p read") st else
  match st.ui.topPValue with
  | none => pfail (.valueError "top_p float") st
  | some current =>
    if absDiffGt current clamped eps9 then
      if !env.topPFillOk then pfail (.timeoutError "top_p fill") st
      else
        withEv (.fillValue "TOP_P_INPUT" (.num clamped)) <|
        ckThen env.pred "Top P 调整 - 填充输入框后" (setUiTopP (env.topPFillEffect clamped) st) fun st =>
        withEv (.sleepMs 100) <|
        withEv (.readValue "TOP_P_INPUT") <|
        if !env.topPRead2Ok then pfail (.timeoutError "top_p read2") st else
        match st.ui.topPValue with
        | none => pfail (.valueError "top_p float2") st
        | some newVal =>
          if !(absDiffGt newVal clamped eps9) then (.ok (), st, [])
          else (.ok (), st, [.logWarn "top_p_verify_fail", .snapshot "top_p_verify_fail"])
    else (.ok (), st, [])

/-- Embedding of PageController._adjust_top_p.  It takes no cache and
never touches the cache. -/
def adjust_top_p (env : ParamsEnv) (top_p : ℚ) (st : ParamsSt) : POut :=
  pwHandler (topPWarnTr top_p) (adjust_top_p_body env (clampTopP top_p) st)
    [.logErr "top_p_value_error", .snapshot "top_p_value_error"] id
    [.logErr "top_p_error", .snapshot "top_p_error"] id

/-- The try-block of _control_thinking_budget_toggle: double-check
idiom; click only when the checked state differs from the desired one,
then re-read and log (never raise) on mismatch. -/
def thinking_toggle_body (env : ParamsEnv) (should : Bool) (st : ParamsSt) : POut :=
  withEv (.waitVisible "SET_THINKING_BUDGET_TOGGLE") <|
  if !env.thinkToggleVisible then pfail (.timeoutError "think toggle visible") st else
  ckThen env.pred "思考预算开关 - 元素可见后" st fun st =>
  withEv (.readAttr "SET_THINKING_BUDGET_TOGGLE" "aria-checked") <|
  if !env.thinkToggleAttrOk then pfail (.otherError "think toggle attr") st else
  if st.ui.thinkToggleChecked != should then
    if !env.thinkToggleClickOk then pfail (.timeoutError "think toggle click") st
    else
      withEv (.clickCtrl "SET_THINKING_BUDGET_TOGGLE") <|
      ckThen env.pred
        ("思考预算开关 - 点击" ++ (if should then "启用" else "禁用") ++ "后")
        (setThinkToggle (env.thinkToggleClickEffect st.ui.thinkToggleChecked) st) fun st =>
      withEv (.sleepMs 500) <|
      withEv (.readAttr "SET_THINKING_BUDGET_TOGGLE" "aria-checked") <|
      if !env.thinkToggleAttrOk then pfail (.otherError "think toggle attr2") st
      else if st.ui.thinkToggleChecked == should then (.ok (), st, [])
      else (.ok (), st, [.logWarn "think_toggle_verify_fail"])
  else (.ok (), st, [])

/-- Embedding of PageController._control_thinking_budget_toggle (its
except block logs and re-raises only the abandonment error; no snapshot,
no cache). -/
def control_thinking_budget_toggle (env : ParamsEnv) (should : Bool) (st : ParamsSt) : POut :=
  pwHandler [] (thinking_toggle_body env should st)
    [.logErr "think_toggle_error"] id
    [.logErr "think_toggle_error"] id

/-- The try-block of _adjust_thinking_budget once a budget is resolved:
wait, fill, settle, re-read, verify (log only). -/
def adjust_thinking_budget_body (env : ParamsEnv) (token_budget : ℤ) (st : ParamsSt) : POut :=
  withEv (.waitVisible "THINKING_BUDGET_INPUT") <|
  if !env.budgetVisible then pfail (.timeoutError "budget visible") st else
  ckThen env.pred "思考预算调整 - 输入框可见后" st fun st =>
  if !env.budgetFillOk then pfail (.timeoutError "budget fill") st
  else
    withEv (.fillValue "THINKING_BUDGET_INPUT" (.intv token_budget)) <|
    ckThen env.pred "思考预算调整 - 填充输入框后" (setUiBudget (env.budgetFillEffect token_budget) st) fun st =>
    withEv (.sleepMs 100) <|
    withEv (.readValue "THINKING_BUDGET_INPUT") <|
    if !env.budgetReadOk then pfail (.timeoutError "budget read") st else
    match st.ui.budgetValue with
    | none => pfail (.valueError "budget int") st
    | some v =>
      if v == token_budget then (.ok (), st, [])
      else (.ok (), st, [.logWarn "thinking_budget_verify_fail"])

/-- Embedding of PageController._adjust_thinking_budget: an unresolved
budget is a logged warning and a skip (no UI interaction, no error). -/
def adjust_thinking_budget (cfg : Config) (env : ParamsEnv) (reasoning_effort : Effort)
    (st : ParamsSt) : POut :=
  match parse_thinking_budget cfg reasoning_effort with
  | none => (.ok (), st, [.logWarn "parse_thinking_budget_fail", .logWarn "thinking_budget_skip"])
  | some token_budget =>
    pwHandler [] (adjust_thinking_budget_body env token_budget st)
      [.logErr "thinking_budget_error"] id
      [.logErr "thinking_budget_error"] id

/-- Embedding of PageController._handle_thinking_budget: an explicit
reasoning_effort forces the toggle on and applies the parsed budget;
otherwise the toggle is driven to the configured default, applying the
default budget only when that default is enabled. -/
def handle_thinking_budget (cfg : Config) (env : ParamsEnv) (reasoning_effort : Effort)
    (st : ParamsSt) : POut :=
  match reasoning_effort with
  | .noneVal =>
    pseq (control_thinking_budget_toggle env cfg.ENABLE_THINKING_BUDGET st) fun st =>
      if cfg.ENABLE_THINKING_BUDGET then adjust_thinking_budget cfg env .noneVal st
      else (.ok (), st, [])
  | e =>
    pseq (control_thinking_budget_toggle env true st) fun st =>
      adjust_thinking_budget cfg env e st

/-- The try-block of _adjust_google_search. -/
def adjust_google_search_body (env : ParamsEnv) (should : Bool) (st : ParamsSt) : POut :=
  withEv (.waitVisible "GROUNDING_WITH_GOOGLE_SEARCH_TOGGLE") <|
  if !env.searchToggleVisible then pfail (.timeoutError "search toggle visible") st else
  ckThen env.pred "Google Search 开关 - 元素可见后" st fun st =>
  withEv (.readAttr "GROUNDING_WITH_GOOGLE_SEARCH_TOGGLE" "aria-checked") <|
  if !env.searchAttrOk then pfail (.otherError "search attr") st else
  if should != st.ui.searchChecked then
    if !env.searchClickOk then pfail (.timeoutError "search click") st
    else
      withEv (.clickCtrl "GROUNDING_WITH_GOOGLE_SEARCH_TOGGLE") <|
      ckThen env.pred
        ("Google Search 开关 - 点击" ++ (if should then "打开" else "关闭") ++ "后")
        (setSearchToggle (env.searchClickEffect st.ui.searchChecked) st) fun st =>
      withEv (.sleepMs 500) <|
      withEv (.readAttr "GROUNDING_WITH_GOOGLE_SEARCH_TOGGLE" "aria-checked") <|
      if !env.searchAttrOk then pfail (.otherError "search attr2") st
      else if st.ui.searchChecked == should then (.ok (), st, [])
      else (.ok (), st, [.logWarn "search_toggle_verify_fail"])
  else (.ok (), st, [])

/-- Embedding of PageController._adjust_google_search: desired state
from _should_enable_google_search, double-check idiom, the except block
re-raises only the abandonment error. -/
def adjust_google_search (cfg : Config) (env : ParamsEnv) (tools : ToolsParam)
    (st : ParamsSt) : POut :=
  pwHandler [] (adjust_google_search_body env (should_enable_google_search cfg tools) st)
    [.logErr "google_search_error"] id
    [.logErr "google_search_error"] id

/-- The try-block of _open_url_content: expand the tools panel when the
ancestor class lacks "expanded", then click the URL-context toggle when
it reads unchecked; the disconnect guard is checked only after that
click. -/
def open_url_content_body (env : ParamsEnv) (st : ParamsSt) : POut :=
  withEv (.readAttr "EXPAND_TOOLS" "class") <|
  if !env.urlAttrOk then pfail (.otherError "expand class attr") st else
  pseq
    (if !st.ui.toolsExpanded then
       if !env.urlExpandClickOk then pfail (.timeoutError "expand click") st
       else
         withEv (.clickCtrl "EXPAND_TOOLS") <|
         withEv (.sleepMs 500) <|
         (.ok (), setToolsExpanded st, [])
     else (.ok (), st, [])) fun st =>
  withEv (.readAttr "USE_URL_CONTEXT" "aria-checked") <|
  if !env.urlCtxAttrOk then pfail (.otherError "urlctx attr") st else
  if !st.ui.urlCtxChecked then
    if !env.urlCtxClickOk then pfail (.timeoutError "urlctx click") st
    else
      withEv (.clickCtrl "USE_URL_CONTEXT") <|
      ckThen env.pred "点击URLCONTEXT"
        (setUrlCtx (env.urlCtxClickEffect st.ui.urlCtxChecked) st) fun st =>
      (.ok (), st, [])
  else (.ok (), st, [])

/-- Embedding of PageController._open_url_content: its except block
swallows every exception, including the abandonment error. -/
def open_url_content (env : ParamsEnv) (st : ParamsSt) : POut :=
  match open_url_content_body env st with
  | (.ok _, st2, tr) => (.ok (), st2, tr)
  | (.error _, st2, tr) => (.ok (), st2, tr ++ [.logErr "url_context_error"])

/-- The request parameters consumed by adjust_parameters.  Absent
optional fields select the configured defaults. -/
structure RequestParams where
  temperature : Option ℚ
  max_output_tokens : Option ℤ
  stop : Option StopParam
  top_p : Option ℚ
  reasoning_effort : Effort
  tools : ToolsParam

/-- Embedding of PageController.adjust_parameters: the full adjustment
chain with its disconnect checkpoints, the flag-gated URL-context step,
the thinking-budget handling and the Google-search toggle. -/
def adjust_parameters (cfg : Config) (env : ParamsEnv) (req : RequestParams)
    (modelId : String) (models : List ModelEntry) (st : ParamsSt) : POut :=
  ckThen env.pred "Start Parameter Adjustment" st fun st =>
  pseq (adjust_temperature env (req.temperature.getD cfg.DEFAULT_TEMPERATURE) st) fun st =>
  ckThen env.pred "After Temperature Adjustment" st fun st =>
  pseq (adjust_max_tokens env (req.max_output_tokens.getD cfg.DEFAULT_MAX_OUTPUT_TOKENS)
    modelId models st) fun st =>
  ckThen env.pred "After Max Tokens Adjustment" st fun st =>
  pseq (adjust_stop_sequences env (req.stop.getD .noneVal) st) fun st =>
  ckThen env.pred "After Stop Sequences Adjustment" st fun st =>
  pseq (adjust_top_p env (req.top_p.getD cfg.DEFAULT_TOP_P) st) fun st =>
  ckThen env.pred "End Parameter Adjustment" st fun st =>
  pseq (if cfg.ENABLE_URL_CONTEXT then open_url_content env st else (.ok (), st, [])) fun st =>
  pseq (handle_thinking_budget cfg env req.reasoning_effort st) fun st =>
  adjust_google_search cfg env req.tools st

/-- Outcome of one upload-strategy attempt in the environment: a
returned boolean, or an exception raised inside the strategy (which the
strategy code absorbs into a False result). -/
inductive StratOutcome where
  | ok (b : Bool)
  | err (e : PyErr)
deriving DecidableEq

/-- Environment for the Upload Orchestrator: the outcome of each
strategy and of the function-button search. -/
structure UploadEnv where
  findClickOutcome : StratOutcome
  directOutcome : StratOutcome
  chooserOutcome : StratOutcome
  dragDropOutcome : StratOutcome
  copyrightFound : Bool

/-- Embedding of _find_and_click_function_button: every per-selector
failure is caught and the search continues; the function only ever
returns a boolean. -/
def find_and_click_function_button (env : UploadEnv) : Bool × List Ev :=
  match env.findClickOutcome with
  | .ok true => (true, [.clickCtrl "FUNCTION_BUTTON", .sleepMs 500])
  | .ok false => (false, [.logErr "no_function_button"])
  | .err _ => (false, [.logErr "no_function_button"])

/-- Embedding of _try_direct_file_input: its whole body is inside a
try/except returning False, so an internal exception becomes False. -/
def try_direct_file_input (env : UploadEnv) : Bool × List Ev :=
  match env.directOutcome with
  | .ok true => (true, [.readValue "FILE_INPUTS", .fillValue "FILE_INPUT" (.str "files"), .sleepMs 2000])
  | .ok false => (false, [.readValue "FILE_INPUTS"])
  | .err _ => (false, [.readValue "FILE_INPUTS"])

/-- Embedding of _try_standard_file_chooser: per-selector failures are
caught and the loop continues; the function only returns a boolean. -/
def try_standard_file_chooser (env : UploadEnv) : Bool × List Ev :=
  match env.chooserOutcome with
  | .ok true => (true, [.clickCtrl "UPLOAD_BUTTON", .fillValue "FILE_CHOOSER" (.str "files"), .sleepMs 1000])
  | .ok false => (false, [.readValue "UPLOAD_BUTTON_CANDIDATES"])
  | .err _ => (false, [.readValue "UPLOAD_BUTTON_CANDIDATES"])

/-- Embedding of _try_drag_drop_upload: the whole body is inside a
try/except, and failures return False. -/
def try_drag_drop_upload (env : UploadEnv) : Bool × List Ev :=
  match env.dragDropOutcome with
  | .ok true => (true, [.fillValue "DROP_ZONE" (.str "files"), .sleepMs 2000])
  | .ok false => (false, [.readValue "DROP_ZONES"])
  | .err _ => (false, [.readValue "DROP_ZONES"])

/-- Embedding of _try_multiple_upload_methods: the ranked fallback
chain; each later strategy runs only when the previous returned False. -/
def try_multiple_upload_methods (env : UploadEnv) : Bool × List Ev :=
  match try_direct_file_input env with
  | (true, tr) => (true, tr)
  | (false, tr) =>
    match try_standard_file_chooser env with
    | (true, tr2) => (true, tr ++ tr2)
    | (false, tr2) =>
      match try_drag_drop_upload env with
      | (b, tr3) => (b, tr ++ tr2 ++ tr3)

/-- Embedding of _handle_copyright_acknowledgement (log-only, every
failure caught). -/
def handle_copyright_acknowledgement (env : UploadEnv) : List Ev :=
  if env.copyrightFound then [.clickCtrl "COPYRIGHT_AGREE"] else []

/-- Embedding of _upload_files_with_diagnostics: diagnostic pass, find
the function button, run the strategy chain, acknowledge copyright on
success; the enclosing try/except logs and swallows, so the routine
returns normally on every path. -/
def upload_files_with_diagnostics (env : UploadEnv) : Except PyErr Unit × List Ev :=
  match find_and_click_function_button env with
  | (false, tr) => (.ok (), .readValue "UPLOAD_DIAGNOSTICS" :: (tr ++ [.logErr "upload_no_button"]))
  | (true, tr) =>
    match try_multiple_upload_methods env with
    | (true, tr2) =>
      (.ok (), .readValue "UPLOAD_DIAGNOSTICS" :: (tr ++ tr2 ++ handle_copyright_acknowledgement env))
    | (false, tr2) =>
      (.ok (), .readValue "UPLOAD_DIAGNOSTICS" :: (tr ++ tr2 ++ [.logErr "upload_all_failed"]))

/-- The live page state seen by the Prompt Submission Engine. -/
structure SubmitUi where
  promptContent : String
  submitDisabled : Bool
  responseCount : Nat
  lastResponseVisible : Bool
deriving DecidableEq

/-- Environment for a prompt-submission run. -/
structure SubmitEnv where
  pred : String → Bool
  promptVisible : Bool
  fillEvalOk : Bool
  attrEvalOk : Bool
  hostOs : Option String
  platformEvalOk : Bool
  platformStr : String
  uaEvalOk : Bool
  userAgent : String
  focusOk : Bool
  origReadOk : Bool
  pressOk : Bool
  pressFallbackOk : Bool
  contentAfterPress : String
  verifyReadOk : Bool
  btnDisabledCheckOk : Bool
  containerCountOk : Bool
  lastVisibleCheckOk : Bool
  submitEnabledOk : Bool
  submitClickOk : Bool
  upload : UploadEnv

/-- Result type of submit_prompt steps. -/
abbrev SOut := Except PyErr Unit × SubmitUi × List Ev

def withSEv (e : Ev) (o : SOut) : SOut := (o.1, o.2.1, e :: o.2.2)

def sfail (e : PyErr) (ui : SubmitUi) : SOut := (.error e, ui, [])

/-- Disconnect checkpoint in the submission engine. -/
def sck (pred : String → Bool) (stage : String) (ui : SubmitUi) (k : SubmitUi → SOut) : SOut :=
  if pred stage then (.error (.clientDisconnected stage), ui, [.checkpoint stage true])
  else withSEv (.checkpoint stage false) (k ui)

def sseq (o : SOut) (k : SubmitUi → SOut) : SOut :=
  match o with
  | (.error e, ui, tr) => (.error e, ui, tr)
  | (.ok _, ui, tr) =>
    match k ui with
    | (r, ui2, tr2) => (r, ui2, tr ++ tr2)

/-- Embedding of the platform detection in _try_shortcut_submit: the
launcher hint takes precedence; otherwise the browser platform string,
falling back to user-agent sniffing, whose evaluation can itself raise. -/
def detect_is_mac (env : SubmitEnv) : Except PyErr Bool :=
  match env.hostOs with
  | some "Darwin" => .ok true
  | some "Windows" => .ok false
  | some "Linux" => .ok false
  | _ =>
    if env.platformEvalOk then .ok (pyContains (pyLower env.platformStr) "mac")
    else if env.uaEvalOk then
      if pyContains (pyLower env.userAgent) "macintosh"
          || pyContains (pyLower env.userAgent) "mac os x" then
        .ok (pyContains (pyLower "macOS") "mac")
      else .ok (pyContains (pyLower "Other") "mac")
    else .error (.otherError "user agent evaluate")

/-- Result of the shortcut attempt: the success boolean plus state and
events (its outermost except converts every exception into False). -/
abbrev TOut := Bool × SubmitUi × List Ev

def withTEv (e : Ev) (o : TOut) : TOut := (o.1, o.2.1, e :: o.2.2)

/-- The multi-method verification at the end of _try_shortcut_submit.
Method 1 (prompt field now empty) reads the field without an inner
guard, so a raise there escapes to the enclosing except, which treats it
as success (no verifyResult event).  Methods 2 and 3 guard their reads
individually and a failure there just skips the method.  A verifyResult
event records a verification that ran to completion. -/
def shortcut_verify (env : SubmitEnv) (originalContent : String) (ui : SubmitUi) : Bool × List Ev :=
  if !env.verifyReadOk then (true, [.readValue "PROMPT_TEXTAREA"])
  else if originalContent ≠ "" ∧ pyStrip ui.promptContent = "" then
    (true, [.readValue "PROMPT_TEXTAREA", .verifyResult true])
  else if env.btnDisabledCheckOk ∧ ui.submitDisabled then
    (true, [.readValue "PROMPT_TEXTAREA", .readAttr "SUBMIT_BUTTON" "disabled", .verifyResult true])
  else if env.containerCountOk ∧ ui.responseCount > 0 ∧ env.lastVisibleCheckOk ∧ ui.lastResponseVisible then
    (true, [.readValue "PROMPT_TEXTAREA", .readAttr "SUBMIT_BUTTON" "disabled",
      .readValue "RESPONSE_CONTAINER", .verifyResult true])
  else
    (false, [.readValue "PROMPT_TEXTAREA", .readAttr "SUBMIT_BUTTON" "disabled",
      .readValue "RESPONSE_CONTAINER", .verifyResult false])

/-- The tail of _try_shortcut_submit after the chord was sent: the
disconnect checkpoint (swallowed by the outermost except when positive),
the long settle sleep, and the verification. -/
def shortcut_after_press (env : SubmitEnv) (originalContent : String) (ui : SubmitUi) : TOut :=
  if env.pred "After Shortcut Press" then (false, ui, [.checkpoint "After Shortcut Press" true])
  else
    withTEv (.checkpoint "After Shortcut Press" false) <|
    withTEv (.sleepMs 2000) <|
    match shortcut_verify env originalContent ui with
    | (b, tr) => (b, ui, tr)

/-- The part of _try_shortcut_submit after the platform was detected:
focus the prompt, send the modifier+Enter chord (with a key-by-key
fallback), then verify. -/
def try_shortcut_submit_core (env : SubmitEnv) (isMac : Bool) (ui : SubmitUi) : TOut :=
  if !env.focusOk then (false, ui, []) else
    withTEv (.focusCtrl "PROMPT_TEXTAREA") <|
    if env.pred "After Input Focus" then (false, ui, [.checkpoint "After Input Focus" true])
    else
      withTEv (.checkpoint "After Input Focus" false) <|
      withTEv (.sleepMs 100) <|
      withTEv (.readValue "PROMPT_TEXTAREA") <|
      if env.pressOk then
        withTEv (.pressKey "keyboard" ((if isMac then "Meta" else "Control") ++ "+Enter")) <|
        shortcut_after_press env (if env.origReadOk then ui.promptContent else "")
          { ui with promptContent := env.contentAfterPress }
      else if env.pressFallbackOk then
        withTEv (.pressKey "keyboard" (if isMac then "Meta" else "Control")) <|
        withTEv (.sleepMs 50) <|
        withTEv (.pressKey "keyboard" "Enter") <|
        withTEv (.sleepMs 50) <|
        withTEv (.pressKey "keyboard" ((if isMac then "Meta" else "Control") ++ " up")) <|
        shortcut_after_press env (if env.origReadOk then ui.promptContent else "")
          { ui with promptContent := env.contentAfterPress }
      else (false, ui, [])

/-- Embedding of PageController._try_shortcut_submit.  Its outermost
except converts every exception — including the abandonment error
raised at its two checkpoints — into a False return. -/
def try_shortcut_submit (env : SubmitEnv) (ui : SubmitUi) : TOut :=
  match detect_is_mac env with
  | .error _ => (false, ui, [])
  | .ok isMac => try_shortcut_submit_core env isMac ui

/-- The wait-for-submit-button-enabled step of submit_prompt: a
disconnect checkpoint, then the bounded enabled-wait. -/
def submit_wait_enable_raw (env : SubmitEnv) (ui : SubmitUi) : SOut :=
  if env.pred "填充提示后等待发送按钮启用 - 前置检查" then
    (.error (.clientDisconnected "填充提示后等待发送按钮启用 - 前置检查"), ui,
      [.checkpoint "填充提示后等待发送按钮启用 - 前置检查" true])
  else
    withSEv (.checkpoint "填充提示后等待发送按钮启用 - 前置检查" false) <|
    withSEv (.waitEnabled "SUBMIT_BUTTON") <|
    if !env.submitEnabledOk then sfail (.timeoutError "submit enabled") ui
    else (.ok (), ui, [])

/-- The enabled-wait step with its failure diagnostics (log + snapshot
appended on error, as in the source's except block around the wait). -/
def submit_wait_enable (env : SubmitEnv) (ui : SubmitUi) : SOut :=
  match submit_wait_enable_raw env ui with
  | (.ok _, ui2, tr) => (.ok (), ui2, tr)
  | (.error e, ui2, tr) =>
    (.error e, ui2, tr ++ [.logErr "submit_enable_error", .snapshot "submit_button_enable_timeout"])

/-- The button-click fallback of submit_prompt: skipped entirely when
the shortcut already submitted; a click failure at this point is
fatal. -/
def submit_click_fallback (env : SubmitEnv) (submitted : Bool) (ui : SubmitUi) : SOut :=
  if submitted then (.ok (), ui, [])
  else if !env.submitClickOk then
    (.error (.timeoutError "submit click"), ui,
      [.logErr "submit_click_error", .snapshot "submit_button_click_fail"])
  else (.ok (), ui, [.clickCtrl "SUBMIT_BUTTON"])

/-- After the submission went through: the final disconnect checkpoint,
with the shortcut and fallback traces prepended. -/
def submit_after_click (env : SubmitEnv) (trS trC : List Ev) (ui3 : SubmitUi) : SOut :=
  match sck env.pred "After Submit" ui3 (fun ui4 => (.ok (), ui4, [])) with
  | (r, ui4, trK) => (r, ui4, trS ++ trC ++ trK)

/-- The tail of submit_prompt after the shortcut attempt returned. -/
def submit_click_tail (env : SubmitEnv) (submitted : Bool) (ui2 : SubmitUi)
    (trS : List Ev) : SOut :=
  match submit_click_fallback env submitted ui2 with
  | (.ok _, ui3, trC) => submit_after_click env trS trC ui3
  | (.error e, ui3, trC) => (.error e, ui3, trS ++ trC)

/-- The shortcut attempt followed by the fallback decision and the final
checkpoint. -/
def submit_click_step (env : SubmitEnv) (ui : SubmitUi) : SOut :=
  match try_shortcut_submit env ui with
  | (submitted, ui2, trS) => submit_click_tail env submitted ui2 trS

/-- The body of submit_prompt inside its outer try. -/
def submit_prompt_body (env : SubmitEnv) (prompt : String) (imageCount : Nat)
    (ui : SubmitUi) : SOut :=
  withSEv (.waitVisible "PROMPT_TEXTAREA") <|
  if !env.promptVisible then sfail (.timeoutError "prompt visible") ui else
  sck env.pred "After Input Visible" ui fun ui =>
  if !env.fillEvalOk then sfail (.otherError "prompt fill evaluate") ui
  else
    withSEv (.fillValue "PROMPT_TEXTAREA" (.str prompt)) <|
    if !env.attrEvalOk then sfail (.otherError "autosize attr evaluate")
      { ui with promptContent := prompt }
    else
      withSEv (.fillValue "AUTOSIZE_WRAPPER" (.str prompt)) <|
      sck env.pred "After Input Fill" { ui with promptContent := prompt } fun ui =>
      sseq
        (if imageCount > 0 then
          match upload_files_with_diagnostics env.upload with
          | (r, tr) => (r.map (fun _ => ()), ui, tr)
         else (.ok (), ui, [])) fun ui =>
      sseq (submit_wait_enable env ui) fun ui =>
      sck env.pred "After Submit Button Enabled" ui fun ui =>
      withSEv (.sleepMs 300) <|
      submit_click_step env ui

/-- Embedding of PageController.submit_prompt: the outer except logs,
snapshots only for non-abandonment errors, and re-raises. -/
def submit_prompt (env : SubmitEnv) (prompt : String) (imageCount : Nat)
    (ui : SubmitUi) : SOut :=
  match submit_prompt_body env prompt imageCount ui with
  | (.ok _, ui2, tr) => (.ok (), ui2, tr)
  | (.error e, ui2, tr) =>
    match e with
    | .clientDisconnected m =>
      (.error (.clientDisconnected m), ui2, tr ++ [.logErr "input_submit_error"])
    | e => (.error e, ui2, tr ++ [.logErr "input_submit_error", .snapshot "input_submit_error"])

/-- Outcome of one disappearance poll of the clear-confirmation dialog. -/
inductive WaitOut where
  | ok
  | timeout
  | oerr
deriving DecidableEq

/-- Environment for a chat-clear run. -/
structure ClearEnv where
  pred : String → Bool
  overlayInitiallyVisible : Bool
  clearClickOk : Bool
  confirmClickOk : Bool
  overlayAppears : Bool
  disappear : Nat → WaitOut

/-- Result type of the Session Reset Controller steps. -/
abbrev COut := Except PyErr Unit × List Ev

def withCEv (e : Ev) (o : COut) : COut := (o.1, e :: o.2)

def cck (pred : String → Bool) (stage : String) (k : Unit → COut) : COut :=
  if pred stage then (.error (.clientDisconnected stage), [.checkpoint stage true])
  else withCEv (.checkpoint stage false) (k ())

def cseq (o : COut) (k : Unit → COut) : COut :=
  match o with
  | (.error e, tr) => (.error e, tr)
  | (.ok _, tr) =>
    match k () with
    | (r, tr2) => (r, tr ++ tr2)

/-- The stage label of the retry checkpoint inside the disappearance
loop of _execute_chat_clear. -/
def clearRetryStage (attempt : Nat) : String :=
  "清空聊天 - 重试消失检查 " ++ toString (attempt + 1) ++ " 前"

/-- The disappearance polling loop of _execute_chat_clear, iterating
over range(3): each attempt waits for the confirm control and overlay to
become hidden; a timeout backs off 1 second and retries while attempts
remain, and exhausting the 3 attempts captures a snapshot and raises. -/
def clear_disappear_loop (env : ClearEnv) : List Nat → COut
  | [] => (.ok (), [])
  | attempt :: rest =>
    withCEv (.waitHidden "CLEAR_CONFIRM_DIALOG") <|
    match env.disappear attempt with
    | .ok => (.ok (), [])
    | .timeout =>
      withCEv (.logWarn "clear_dialog_disappear_timeout") <|
      if attempt < 2 then
        withCEv (.sleepMs 1000) <|
        (if env.pred (clearRetryStage attempt) then
          (.error (.clientDisconnected (clearRetryStage attempt)),
            [.checkpoint (clearRetryStage attempt) true])
         else
          withCEv (.checkpoint (clearRetryStage attempt) false) (clear_disappear_loop env rest))
      else
        (.error (.otherError "clear dialog did not disappear"),
          [.logErr "clear_dialog_max_retries", .snapshot "clear_chat_dialog_disappear_timeout"])
    | .oerr =>
      withCEv (.logWarn "clear_dialog_other_error") <|
      if attempt < 2 then
        withCEv (.sleepMs 1000) (clear_disappear_loop env rest)
      else (.error (.otherError "clear dialog other error"), [])

/-- Embedding of PageController._execute_chat_clear: initial overlay
check; if a leftover overlay is visible, click confirm directly,
otherwise click clear, wait (fatally) for the overlay, click confirm;
then the bounded disappearance poll. -/
def execute_chat_clear (env : ClearEnv) : COut :=
  withCEv (.readValue "OVERLAY") <|
  cck env.pred "清空聊天 - 初始遮罩层检查后" fun _ =>
  cseq
    (if env.overlayInitiallyVisible then
      if !env.confirmClickOk then (.error (.timeoutError "confirm click"), [])
      else (.ok (), [.clickCtrl "CLEAR_CHAT_CONFIRM_BUTTON"])
     else
      if !env.clearClickOk then (.error (.timeoutError "clear click"), [])
      else
        withCEv (.clickCtrl "CLEAR_CHAT_BUTTON") <|
        cck env.pred "清空聊天 - 点击\"清空聊天\"后" fun _ =>
        withCEv (.waitVisible "OVERLAY") <|
        if !env.overlayAppears then
          (.error (.otherError "overlay did not appear"),
            [.logErr "clear_overlay_timeout", .snapshot "clear_chat_overlay_timeout"])
        else
          cck env.pred "清空聊天 - 遮罩层出现后" fun _ =>
          if !env.confirmClickOk then (.error (.timeoutError "confirm click"), [])
          else (.ok (), [.clickCtrl "CLEAR_CHAT_CONFIRM_BUTTON"])) fun _ =>
  cck env.pred "清空聊天 - 点击\"继续\"后" fun _ =>
  clear_disappear_loop env [0, 1, 2]

/-- The empty parameter cache (fresh session). -/
def cacheEmpty : ParamsCache :=
  { temperature := none, max_output_tokens := none, stop_sequences := none }

/-- A benign page state used by concrete runs. -/
def uiOk : ParamsUi :=
  { tempValue := some 1, maxTokensValue := some 1024, topPValue := some 1, chips := [],
    thinkToggleChecked := true, budgetValue := some 8000, searchChecked := false,
    urlCtxChecked := true, toolsExpanded := true }

/-- A benign combined state. -/
def stOk : ParamsSt := { ui := uiOk, cache := cacheEmpty }

/-- A benign environment: a never-disconnecting predicate, all waits
succeed, all reads succeed, and every fill lands exactly. -/
def envOk : ParamsEnv :=
  { pred := fun _ => false, tempVisible := true, tempReadOk := true, tempFillOk := true,
    tempRead2Ok := true, tempFillEffect := fun q => some q, maxVisible := true,
    maxReadOk := true, maxFillOk := true, maxRead2Ok := true,
    maxFillEffect := fun n => some n, chipClickFails := fun _ => false, stopVisible := true,
    stopFillFails := fun _ => false, stopPressFails := fun _ => false, topPVisible := true,
    topPReadOk := true, topPFillOk := true, topPRead2Ok := true,
    topPFillEffect := fun q => some q, thinkToggleVisible := true, thinkToggleAttrOk := true,
    thinkToggleClickOk := true, thinkToggleClickEffect := fun b => !b, budgetVisible := true,
    budgetFillOk := true, budgetReadOk := true, budgetFillEffect := fun n => some n,
    searchToggleVisible := true, searchAttrOk := true, searchClickOk := true,
    searchClickEffect := fun b => !b, urlAttrOk := true, urlExpandClickOk := true,
    urlCtxAttrOk := true, urlCtxClickOk := true, urlCtxClickEffect := fun b => !b }

/-- A fixed configuration used by concrete runs. -/
def cfgFix : Config :=
  { DEFAULT_TEMPERATURE := 1, DEFAULT_MAX_OUTPUT_TOKENS := 1024, DEFAULT_TOP_P := 1,
    ENABLE_URL_CONTEXT := true, ENABLE_THINKING_BUDGET := false,
    DEFAULT_THINKING_BUDGET := 8000, ENABLE_GOOGLE_SEARCH := false }

/-- The fixed configuration with the search default enabled. -/
def cfgSearchOn : Config :=
  { DEFAULT_TEMPERATURE := 1, DEFAULT_MAX_OUTPUT_TOKENS := 1024, DEFAULT_TOP_P := 1,
    ENABLE_URL_CONTEXT := true, ENABLE_THINKING_BUDGET := false,
    DEFAULT_THINKING_BUDGET := 8000, ENABLE_GOOGLE_SEARCH := true }

/-- Claim C7 counterexample: with the static search default enabled and
a request whose tools list is present but contains no recognized search
directive (one plain dict entry), the computed desired state is false,
not the static default as the claim states. -/
theorem c7_counterexample :
    should_enable_google_search cfgSearchOn (.listVal [.dict false none]) = false
    ∧ cfgSearchOn.ENABLE_GOOGLE_SEARCH = true
    ∧ [ToolEntry.dict false none].any toolHasGoogleSearch = false := by
  refine ⟨rfl, rfl, rfl⟩

/-- Claim C7 (corrected): the desired search-grounding state is the
static default only when the tools key is absent or None; when a tools
list is present the desired state is exactly whether some entry is a
recognized Google-search directive (so false — not the default — when
none matches); a present non-list tools value yields false. -/
theorem c7_search_desired_state (cfg : Config) :
    should_enable_google_search cfg .absent = cfg.ENABLE_GOOGLE_SEARCH
    ∧ should_enable_google_search cfg .noneVal = cfg.ENABLE_GOOGLE_SEARCH
    ∧ (∀ l, should_enable_google_search cfg (.listVal l) = l.any toolHasGoogleSearch)
    ∧ should_enable_google_search cfg .nonList = false
    ∧ (∀ gsr fn, toolHasGoogleSearch (.dict gsr fn) = (gsr || fn == some "googleSearch"))
    ∧ toolHasGoogleSearch .nonDict = false := by
  refine ⟨rfl, rfl, fun l => rfl, rfl, fun gsr fn => rfl, rfl⟩

/-- Claim C4: thinking-budget resolution as a total function: integer
passthrough, the case-insensitive tiers low/medium/high, the literal
none and the absent value mapping to the default budget, integer
parsing for other strings, and the skip-with-warning behavior (no UI
interaction, no error) on an unresolvable value. -/
theorem c4_thinking_budget_resolution (cfg : Config) :
    (∀ n : ℤ, parse_thinking_budget cfg (.intVal n) = some n)
    ∧ (∀ s, pyLower s = "low" → parse_thinking_budget cfg (.strVal s) = some 1000)
    ∧ (∀ s, pyLower s = "medium" → parse_thinking_budget cfg (.strVal s) = some 8000)
    ∧ (∀ s, pyLower s = "high" → parse_thinking_budget cfg (.strVal s) = some 24000)
    ∧ (∀ s, pyLower s = "none" →
        parse_thinking_budget cfg (.strVal s) = some cfg.DEFAULT_THINKING_BUDGET)
    ∧ parse_thinking_budget cfg .noneVal = some cfg.DEFAULT_THINKING_BUDGET
    ∧ (∀ s, pyLower s ≠ "none" → pyLower s ≠ "low" → pyLower s ≠ "medium" →
        pyLower s ≠ "high" → parse_thinking_budget cfg (.strVal s) = pyIntOfString s)
    ∧ parse_thinking_budget cfg (.strVal "7") = some 7
    ∧ parse_thinking_budget cfg (.strVal "bogus") = none
    ∧ parse_thinking_budget cfg .otherVal = none
    ∧ (∀ env st e, parse_thinking_budget cfg e = none →
        (adjust_thinking_budget cfg env e st).1 = .ok ()
        ∧ (adjust_thinking_budget cfg env e st).2.1 = st
        ∧ (adjust_thinking_budget cfg env e st).2.2.all (fun ev => !ev.isUiInteraction) = true
        ∧ (adjust_thinking_budget cfg env e st).2.2.any
            (fun ev => ev == .logWarn "parse_thinking_budget_fail") = true) := by
  refine ⟨fun n => rfl, ?_, ?_, ?_, ?_, rfl, ?_, rfl, rfl, rfl, ?_⟩
  · intro s h; simp [parse_thinking_budget, h, effortMap]
  · intro s h; simp [parse_thinking_budget, h, effortMap]
  · intro s h; simp [parse_thinking_budget, h, effortMap]
  · intro s h; simp [parse_thinking_budget, h]
  · intro s h1 h2 h3 h4; simp [parse_thinking_budget, h1, h2, h3, h4, effortMap]
  · intro env st e h
    unfold adjust_thinking_budget
    rw [h]
    refine ⟨rfl, rfl, rfl, rfl⟩

/-- Witness for c4_thinking_budget_resolution at concrete inputs: the
uppercase tier string and an unresolvable value. -/
theorem c4_witness :
    parse_thinking_budget cfgFix (.strVal "LOW") = some 1000
    ∧ ((adjust_thinking_budget cfgFix envOk .otherVal stOk).1 = .ok ()
        ∧ (adjust_thinking_budget cfgFix envOk .otherVal stOk).2.1 = stOk
        ∧ (adjust_thinking_budget cfgFix envOk .otherVal stOk).2.2.all
            (fun ev => !ev.isUiInteraction) = true
        ∧ (adjust_thinking_budget cfgFix envOk .otherVal stOk).2.2.any
            (fun ev => ev == .logWarn "parse_thinking_budget_fail") = true) :=
  ⟨(c4_thinking_budget_resolution cfgFix).2.1 "LOW" (by decide),
   (c4_thinking_budget_resolution cfgFix).2.2.2.2.2.2.2.2.2.2 envOk stOk .otherVal rfl⟩

/-- No positive disconnect checkpoint occurs in the trace. -/
def noTrueCkpt (tr : List Ev) : Bool := tr.all (fun e => !e.isTrueCheckpoint)

/-- The outcome is the abandonment error. -/
def isDiscResult (r : Except PyErr Unit) : Bool :=
  match r with
  | .error (.clientDisconnected _) => true
  | _ => false

/-- Every event of the trace satisfies p. -/
def TrPred (p : Ev → Bool) (o : POut) : Prop := o.2.2.all p = true

theorem trpred_withEv (p : Ev → Bool) (e : Ev) (o : POut) (he : p e = true)
    (h : TrPred p o) : TrPred p (withEv e o) := by
  obtain ⟨r, st, tr⟩ := o
  simpa [TrPred, withEv, he] using h

theorem trpred_pfail (p : Ev → Bool) (e : PyErr) (st : ParamsSt) : TrPred p (pfail e st) := by
  simp [TrPred, pfail]

theorem trpred_leaf (p : Ev → Bool) (r : Except PyErr Unit) (st : ParamsSt) (evs : List Ev)
    (h : evs.all p = true) : TrPred p (r, st, evs) := h

theorem trpred_ckThen (p : Ev → Bool) (pred : String → Bool) (stage : String) (st : ParamsSt)
    (k : ParamsSt → POut) (hc : ∀ b, p (.checkpoint stage b) = true)
    (h : ∀ st2, TrPred p (k st2)) : TrPred p (ckThen pred stage st k) := by
  unfold ckThen
  split
  · simp [TrPred, hc]
  · exact trpred_withEv p _ _ (hc false) (h st)

theorem trpred_pseq (p : Ev → Bool) (o : POut) (k : ParamsSt → POut)
    (h1 : TrPred p o) (h2 : ∀ st, TrPred p (k st)) : TrPred p (pseq o k) := by
  obtain ⟨r, st, tr⟩ := o
  cases r with
  | error e => exact h1
  | ok _ =>
    have h3 := h2 st
    obtain ⟨r2, st2, tr2⟩ := k st
    simp only [TrPred, pseq, List.all_append]
    simp only [TrPred] at h1 h3
    simp [h1, h3]

theorem trpred_pwHandler (p : Ev → Bool) (warnTr valEvs genEvs : List Ev)
    (valAdj genAdj : ParamsSt → ParamsSt) (body : POut)
    (hw : warnTr.all p = true) (hv : valEvs.all p = true) (hg : genEvs.all p = true)
    (h : TrPred p body) : TrPred p (pwHandler warnTr body valEvs valAdj genEvs genAdj) := by
  obtain ⟨r, st, tr⟩ := body
  simp only [TrPred] at h
  cases r with
  | ok _ => simp [TrPred, pwHandler, List.all_append, hw, h]
  | error e =>
    cases e <;> simp [TrPred, pwHandler, List.all_append, hw, hv, hg, h]

theorem noMutAfterTrue_cons_eq (e : Ev) (tr : List Ev) :
    noMutAfterTrue (e :: tr) =
      (if e.isTrueCheckpoint then tr.all (fun x => !x.isUiMutation) else noMutAfterTrue tr) := by
  cases e with
  | checkpoint s b => cases b <;> simp [noMutAfterTrue, Ev.isTrueCheckpoint]
  | _ => rfl

theorem noMutAfterTrue_cons (e : Ev) (tr : List Ev) (h : e.isTrueCheckpoint = false) :
    noMutAfterTrue (e :: tr) = noMutAfterTrue tr := by
  rw [noMutAfterTrue_cons_eq, h]
  rfl

theorem noMutAfterTrue_of_allNonMut (tr : List Ev)
    (h : tr.all (fun e => !e.isUiMutation) = true) : noMutAfterTrue tr = true := by
  induction tr with
  | nil => rfl
  | cons e rest ih =>
    simp only [List.all_cons, Bool.and_eq_true] at h
    rw [noMutAfterTrue_cons_eq]
    by_cases he : e.isTrueCheckpoint = true
    · simp only [he, if_true]
      exact List.all_eq_true.mpr (fun x hx => List.all_eq_true.mp h.2 x hx)
    · simp only [Bool.not_eq_true] at he
      simp only [he]
      simpa using ih h.2

theorem noMutAfterTrue_of_noTrue (tr : List Ev) (h : noTrueCkpt tr = true) :
    noMutAfterTrue tr = true := by
  induction tr with
  | nil => rfl
  | cons e rest ih =>
    simp only [noTrueCkpt, List.all_cons, Bool.and_eq_true] at h
    rw [noMutAfterTrue_cons e rest (by simpa using h.1)]
    exact ih h.2

theorem noMutAfterTrue_append_left (A B : List Ev) (h : noTrueCkpt A = true) :
    noMutAfterTrue (A ++ B) = noMutAfterTrue B := by
  induction A with
  | nil => rfl
  | cons e rest ih =>
    simp only [noTrueCkpt, List.all_cons, Bool.and_eq_true] at h
    rw [List.cons_append, noMutAfterTrue_cons e _ (by simpa using h.1)]
    exact ih h.2

theorem noMutAfterTrue_append_right (A B : List Ev) (h1 : noMutAfterTrue A = true)
    (h2 : B.all (fun e => !e.isUiMutation) = true) : noMutAfterTrue (A ++ B) = true := by
  induction A with
  | nil => simpa using noMutAfterTrue_of_allNonMut B h2
  | cons e rest ih =>
    rw [List.cons_append, noMutAfterTrue_cons_eq]
    rw [noMutAfterTrue_cons_eq] at h1
    by_cases he : e.isTrueCheckpoint = true
    · simp only [he, if_true] at h1 ⊢
      simp [List.all_append, h1, h2]
    · simp only [Bool.not_eq_true] at he
      simp only [he] at h1 ⊢
      simp only [Bool.false_eq_true, if_false] at h1 ⊢
      exact ih h1

/-- Trace discipline of one routine segment: no UI mutation after a
positive checkpoint, and a non-abandonment outcome implies no positive
checkpoint occurred at all. -/
def BodySeg (o : POut) : Prop :=
  noMutAfterTrue o.2.2 = true
  ∧ (isDiscResult o.1 = false → noTrueCkpt o.2.2 = true)

/-- BodySeg plus: the only propagated error is the abandonment error. -/
def CleanSeg (o : POut) : Prop :=
  BodySeg o ∧ (o.1 = .ok () ∨ isDiscResult o.1 = true)

theorem bodyseg_withEv (e : Ev) (o : POut) (he : e.isTrueCheckpoint = false)
    (h : BodySeg o) : BodySeg (withEv e o) := by
  obtain ⟨r, st, tr⟩ := o
  obtain ⟨h1, h2⟩ := h
  refine ⟨?_, ?_⟩
  · simpa [withEv, noMutAfterTrue_cons e tr he] using h1
  · intro hd
    simp only [withEv] at hd ⊢
    simp only [noTrueCkpt, List.all_cons, Bool.and_eq_true]
    exact ⟨by simpa using he, h2 hd⟩

theorem bodyseg_pfail (e : PyErr) (st : ParamsSt) : BodySeg (pfail e st) := by
  refine ⟨rfl, fun _ => rfl⟩

theorem bodyseg_leaf (r : Except PyErr Unit) (st : ParamsSt) (evs : List Ev)
    (h : noTrueCkpt evs = true) : BodySeg (r, st, evs) :=
  ⟨noMutAfterTrue_of_noTrue evs h, fun _ => h⟩

theorem bodyseg_ckThen (pred : String → Bool) (stage : String) (st : ParamsSt)
    (k : ParamsSt → POut) (h : ∀ st2, BodySeg (k st2)) : BodySeg (ckThen pred stage st k) := by
  unfold ckThen
  split
  · exact ⟨rfl, fun hd => by simp [isDiscResult] at hd⟩
  · exact bodyseg_withEv _ _ rfl (h st)

theorem bodyseg_pseq (o : POut) (k : ParamsSt → POut) (h1 : BodySeg o)
    (h2 : ∀ st, BodySeg (k st)) : BodySeg (pseq o k) := by
  obtain ⟨r, st, tr⟩ := o
  cases r with
  | error e => exact h1
  | ok _ =>
    obtain ⟨ha, hb⟩ := h1
    have hb2 : noTrueCkpt tr = true := hb rfl
    obtain ⟨hc, hd⟩ := h2 st
    rcases hks : k st with ⟨r2, st2, tr2⟩
    rw [hks] at hc hd
    refine ⟨?_, ?_⟩
    · simp only [pseq, hks]
      rw [noMutAfterTrue_append_left tr tr2 hb2]
      exact hc
    · intro he
      simp only [pseq, hks] at he ⊢
      simp only [noTrueCkpt, List.all_append, Bool.and_eq_true]
      exact ⟨hb2, hd he⟩

theorem cleanseg_pwHandler (warnTr valEvs genEvs : List Ev)
    (valAdj genAdj : ParamsSt → ParamsSt) (body : POut)
    (hw : noTrueCkpt warnTr = true)
    (hvm : valEvs.all (fun e => !e.isUiMutation) = true)
    (hvc : noTrueCkpt valEvs = true)
    (hgm : genEvs.all (fun e => !e.isUiMutation) = true)
    (hgc : noTrueCkpt genEvs = true)
    (h : BodySeg body) : CleanSeg (pwHandler warnTr body valEvs valAdj genEvs genAdj) := by
  obtain ⟨r, st, tr⟩ := body
  obtain ⟨h1, h2⟩ := h
  cases r with
  | ok _ =>
    have h3 : noTrueCkpt tr = true := h2 rfl
    refine ⟨⟨?_, ?_⟩, Or.inl rfl⟩
    · simp only [pwHandler]
      rw [noMutAfterTrue_append_left warnTr tr hw]
      exact h1
    · intro _
      simp only [pwHandler, noTrueCkpt, List.all_append, Bool.and_eq_true]
      exact ⟨hw, h3⟩
  | error e =>
    cases e with
    | clientDisconnected m =>
      refine ⟨⟨?_, ?_⟩, Or.inr rfl⟩
      · simp only [pwHandler]
        refine noMutAfterTrue_append_right (warnTr ++ tr) genEvs ?_ hgm
        rw [noMutAfterTrue_append_left warnTr tr hw]
        exact h1
      · intro hd
        simp [pwHandler, isDiscResult] at hd
    | valueError m =>
      have h3 : noTrueCkpt tr = true := h2 (by simp [isDiscResult])
      refine ⟨⟨?_, ?_⟩, Or.inl rfl⟩
      · simp only [pwHandler]
        refine noMutAfterTrue_append_right (warnTr ++ tr) valEvs ?_ hvm
        rw [noMutAfterTrue_append_left warnTr tr hw]
        exact h1
      · intro _
        simp only [pwHandler, noTrueCkpt, List.all_append, Bool.and_eq_true]
        exact ⟨⟨hw, h3⟩, hvc⟩
    | timeoutError m =>
      have h3 : noTrueCkpt tr = true := h2 (by simp [isDiscResult])
      refine ⟨⟨?_, ?_⟩, Or.inl rfl⟩
      · simp only [pwHandler]
        refine noMutAfterTrue_append_right (warnTr ++ tr) genEvs ?_ hgm
        rw [noMutAfterTrue_append_left warnTr tr hw]
        exact h1
      · intro _
        simp only [pwHandler, noTrueCkpt, List.all_append, Bool.and_eq_true]
        exact ⟨⟨hw, h3⟩, hgc⟩
    | otherError m =>
      have h3 : noTrueCkpt tr = true := h2 (by simp [isDiscResult])
      refine ⟨⟨?_, ?_⟩, Or.inl rfl⟩
      · simp only [pwHandler]
        refine noMutAfterTrue_append_right (warnTr ++ tr) genEvs ?_ hgm
        rw [noMutAfterTrue_append_left warnTr tr hw]
        exact h1
      · intro _
        simp only [pwHandler, noTrueCkpt, List.all_append, Bool.and_eq_true]
        exact ⟨⟨hw, h3⟩, hgc⟩

theorem bodyseg_temp_body (env : ParamsEnv) (clamped : ℚ) (st : ParamsSt) :
    BodySeg (adjust_temperature_body env clamped st) := by
  unfold adjust_temperature_body
  refine bodyseg_withEv _ _ rfl ?_
  split
  · exact bodyseg_pfail _ _
  · refine bodyseg_ckThen _ _ _ _ ?_
    intro st1
    refine bodyseg_withEv _ _ rfl ?_
    split
    · exact bodyseg_pfail _ _
    · refine bodyseg_ckThen _ _ _ _ ?_
      intro st2
      split
      · exact bodyseg_pfail _ _
      · split
        · exact bodyseg_leaf _ _ _ rfl
        · split
          · exact bodyseg_pfail _ _
          · refine bodyseg_withEv _ _ rfl ?_
            refine bodyseg_ckThen _ _ _ _ ?_
            intro st3
            refine bodyseg_withEv _ _ rfl ?_
            refine bodyseg_withEv _ _ rfl ?_
            split
            · exact bodyseg_pfail _ _
            · split
              · exact bodyseg_pfail _ _
              · split
                · exact bodyseg_leaf _ _ _ rfl
                · exact bodyseg_leaf _ _ _ rfl

theorem bodyseg_max_body (env : ParamsEnv) (clamped : ℤ) (st : ParamsSt) :
    BodySeg (adjust_max_tokens_body env clamped st) := by
  unfold adjust_max_tokens_body
  refine bodyseg_withEv _ _ rfl ?_
  split
  · exact bodyseg_pfail _ _
  · refine bodyseg_ckThen _ _ _ _ ?_
    intro st1
    refine bodyseg_withEv _ _ rfl ?_
    split
    · exact bodyseg_pfail _ _
    · split
      · exact bodyseg_pfail _ _
      · split
        · exact bodyseg_leaf _ _ _ rfl
        · split
          · exact bodyseg_pfail _ _
          · refine bodyseg_withEv _ _ rfl ?_
            refine bodyseg_ckThen _ _ _ _ ?_
            intro st2
            refine bodyseg_withEv _ _ rfl ?_
            refine bodyseg_withEv _ _ rfl ?_
            split
            · exact bodyseg_pfail _ _
            · split
              · exact bodyseg_pfail _ _
              · split
                · exact bodyseg_leaf _ _ _ rfl
                · exact bodyseg_leaf _ _ _ rfl

theorem bodyseg_removeChipsGo (env : ParamsEnv) :
    ∀ fuel removed maxR st, BodySeg (removeChipsGo env fuel removed maxR st) := by
  intro fuel
  induction fuel with
  | zero =>
    intro removed maxR st
    rw [removeChipsGo]
    refine bodyseg_withEv _ _ rfl ?_
    split
    · exact bodyseg_leaf _ _ _ rfl
    · exact bodyseg_leaf _ _ _ rfl
  | succ n ih =>
    intro removed maxR st
    rw [removeChipsGo]
    refine bodyseg_withEv _ _ rfl ?_
    split
    · refine bodyseg_ckThen _ _ _ _ ?_
      intro st2
      split
      · exact bodyseg_leaf _ _ _ rfl
      · refine bodyseg_withEv _ _ rfl ?_
        refine bodyseg_withEv _ _ rfl ?_
        exact ih (removed + 1) maxR _
    · exact bodyseg_leaf _ _ _ rfl

theorem bodyseg_removeChipsLoop (env : ParamsEnv) (removed maxR : Nat) (st : ParamsSt) :
    BodySeg (removeChipsLoop env removed maxR st) :=
  bodyseg_removeChipsGo env (maxR - removed) removed maxR st

theorem bodyseg_insertStops (env : ParamsEnv) :
    ∀ seqs st, BodySeg (insertStops env seqs st) := by
  intro seqs
  induction seqs with
  | nil => intro st; exact bodyseg_leaf _ _ _ rfl
  | cons s rest ih =>
    intro st
    simp only [insertStops]
    split
    · exact bodyseg_pfail _ _
    · refine bodyseg_withEv _ _ rfl ?_
      split
      · exact bodyseg_pfail _ _
      · refine bodyseg_withEv _ _ rfl ?_
        refine bodyseg_withEv _ _ rfl ?_
        exact ih _

theorem bodyseg_stop_body (env : ParamsEnv) (sp : StopParam) (st : ParamsSt) :
    BodySeg (adjust_stop_sequences_body env sp st) := by
  unfold adjust_stop_sequences_body
  refine bodyseg_withEv _ _ rfl ?_
  refine bodyseg_pseq _ _ (bodyseg_removeChipsLoop env 0 _ st) ?_
  intro st2
  refine bodyseg_pseq _ _ ?_ ?_
  · split
    · exact bodyseg_leaf _ _ _ rfl
    · refine bodyseg_withEv _ _ rfl ?_
      split
      · exact bodyseg_pfail _ _
      · exact bodyseg_insertStops env _ st2
  · intro st3
    exact bodyseg_leaf _ _ _ rfl

theorem bodyseg_top_p_body (env : ParamsEnv) (clamped : ℚ) (st : ParamsSt) :
    BodySeg (adjust_top_p_body env clamped st) := by
  unfold adjust_top_p_body
  refine bodyseg_withEv _ _ rfl ?_
  split
  · exact bodyseg_pfail _ _
  · refine bodyseg_ckThen _ _ _ _ ?_
    intro st1
    refine bodyseg_withEv _ _ rfl ?_
    split
    · exact bodyseg_pfail _ _
    · split
      · exact bodyseg_pfail _ _
      · split
        · split
          · exact bodyseg_pfail _ _
          · refine bodyseg_withEv _ _ rfl ?_
            refine bodyseg_ckThen _ _ _ _ ?_
            intro st2
            refine bodyseg_withEv _ _ rfl ?_
            refine bodyseg_withEv _ _ rfl ?_
            split
            · exact bodyseg_pfail _ _
            · split
              · exact bodyseg_pfail _ _
              · split
                · exact bodyseg_leaf _ _ _ rfl
                · exact bodyseg_leaf _ _ _ rfl
        · exact bodyseg_leaf _ _ _ rfl

theorem bodyseg_think_toggle_body (env : ParamsEnv) (should : Bool) (st : ParamsSt) :
    BodySeg (thinking_toggle_body env should st) := by
  unfold thinking_toggle_body
  refine bodyseg_withEv _ _ rfl ?_
  split
  · exact bodyseg_pfail _ _
  · refine bodyseg_ckThen _ _ _ _ ?_
    intro st1
    refine bodyseg_withEv _ _ rfl ?_
    split
    · exact bodyseg_pfail _ _
    · split
      · split
        · exact bodyseg_pfail _ _
        · refine bodyseg_withEv _ _ rfl ?_
          refine bodyseg_ckThen _ _ _ _ ?_
          intro st2
          refine bodyseg_withEv _ _ rfl ?_
          refine bodyseg_withEv _ _ rfl ?_
          repeat' first
            | exact bodyseg_pfail _ _
            | exact bodyseg_leaf _ _ _ rfl
            | split
      · exact bodyseg_leaf _ _ _ rfl

theorem bodyseg_budget_body (env : ParamsEnv) (tok : ℤ) (st : ParamsSt) :
    BodySeg (adjust_thinking_budget_body env tok st) := by
  unfold adjust_thinking_budget_body
  refine bodyseg_withEv _ _ rfl ?_
  split
  · exact bodyseg_pfail _ _
  · refine bodyseg_ckThen _ _ _ _ ?_
    intro st1
    split
    · exact bodyseg_pfail _ _
    · refine bodyseg_withEv _ _ rfl ?_
      refine bodyseg_ckThen _ _ _ _ ?_
      intro st2
      refine bodyseg_withEv _ _ rfl ?_
      refine bodyseg_withEv _ _ rfl ?_
      split
      · exact bodyseg_pfail _ _
      · split
        · exact bodyseg_pfail _ _
        · split
          · exact bodyseg_leaf _ _ _ rfl
          · exact bodyseg_leaf _ _ _ rfl

theorem bodyseg_search_body (env : ParamsEnv) (should : Bool) (st : ParamsSt) :
    BodySeg (adjust_google_search_body env should st) := by
  unfold adjust_google_search_body
  refine bodyseg_withEv _ _ rfl ?_
  split
  · exact bodyseg_pfail _ _
  · refine bodyseg_ckThen _ _ _ _ ?_
    intro st1
    refine bodyseg_withEv _ _ rfl ?_
    split
    · exact bodyseg_pfail _ _
    · split
      · split
        · exact bodyseg_pfail _ _
        · refine bodyseg_withEv _ _ rfl ?_
          refine bodyseg_ckThen _ _ _ _ ?_
          intro st2
          refine bodyseg_withEv _ _ rfl ?_
          refine bodyseg_withEv _ _ rfl ?_
          repeat' first
            | exact bodyseg_pfail _ _
            | exact bodyseg_leaf _ _ _ rfl
            | split
      · exact bodyseg_leaf _ _ _ rfl

theorem cleanseg_withEv (e : Ev) (o : POut) (he : e.isTrueCheckpoint = false)
    (h : CleanSeg o) : CleanSeg (withEv e o) := by
  obtain ⟨hb, ho⟩ := h
  exact ⟨bodyseg_withEv e o he hb, ho⟩

theorem cleanseg_leafOk (st : ParamsSt) (evs : List Ev) (h : noTrueCkpt evs = true) :
    CleanSeg (.ok (), st, evs) :=
  ⟨bodyseg_leaf _ _ _ h, Or.inl rfl⟩

theorem cleanseg_ckThen (pred : String → Bool) (stage : String) (st : ParamsSt)
    (k : ParamsSt → POut) (h : ∀ st2, CleanSeg (k st2)) : CleanSeg (ckThen pred stage st k) := by
  unfold ckThen
  split
  · exact ⟨⟨rfl, fun hd => by simp [isDiscResult] at hd⟩, Or.inr rfl⟩
  · exact cleanseg_withEv _ _ rfl (h st)

theorem cleanseg_pseq (o : POut) (k : ParamsSt → POut) (h1 : CleanSeg o)
    (h2 : ∀ st, CleanSeg (k st)) : CleanSeg (pseq o k) := by
  obtain ⟨hb1, ho1⟩ := h1
  refine ⟨bodyseg_pseq _ _ hb1 (fun st => (h2 st).1), ?_⟩
  obtain ⟨r, st, tr⟩ := o
  cases r with
  | error e => exact ho1
  | ok _ =>
    rcases hks : k st with ⟨r2, st2, tr2⟩
    have ho2 := (h2 st).2
    rw [hks] at ho2
    simpa [pseq, hks] using ho2

theorem noTrue_tempWarnTr (t : ℚ) : noTrueCkpt (tempWarnTr t) = true := by
  unfold tempWarnTr
  split <;> rfl

theorem noTrue_maxWarnTr (modelId : String) (models : List ModelEntry) (m : ℤ) :
    noTrueCkpt (maxWarnTr modelId models m) = true := by
  unfold maxWarnTr
  split <;> rfl

theorem noTrue_topPWarnTr (t : ℚ) : noTrueCkpt (topPWarnTr t) = true := by
  unfold topPWarnTr
  split <;> rfl

theorem cleanseg_adjust_temperature (env : ParamsEnv) (t : ℚ) (st : ParamsSt) :
    CleanSeg (adjust_temperature env t st) := by
  unfold adjust_temperature
  split
  · exact cleanseg_leafOk _ _ (noTrue_tempWarnTr t)
  · exact cleanseg_pwHandler _ _ _ _ _ _ (noTrue_tempWarnTr t) rfl rfl rfl rfl
      (bodyseg_temp_body env _ st)

theorem cleanseg_adjust_max_tokens (env : ParamsEnv) (m : ℤ) (modelId : String)
    (models : List ModelEntry) (st : ParamsSt) :
    CleanSeg (adjust_max_tokens env m modelId models st) := by
  unfold adjust_max_tokens
  split
  · exact cleanseg_leafOk _ _ (noTrue_maxWarnTr modelId models m)
  · exact cleanseg_pwHandler _ _ _ _ _ _ (noTrue_maxWarnTr modelId models m) rfl rfl rfl rfl
      (bodyseg_max_body env _ st)

theorem cleanseg_adjust_stop_sequences (env : ParamsEnv) (sp : StopParam) (st : ParamsSt) :
    CleanSeg (adjust_stop_sequences env sp st) := by
  unfold adjust_stop_sequences
  split
  · exact cleanseg_leafOk _ _ rfl
  · exact cleanseg_pwHandler _ _ _ _ _ _ rfl rfl rfl rfl rfl (bodyseg_stop_body env sp st)

theorem cleanseg_adjust_top_p (env : ParamsEnv) (t : ℚ) (st : ParamsSt) :
    CleanSeg (adjust_top_p env t st) := by
  unfold adjust_top_p
  exact cleanseg_pwHandler _ _ _ _ _ _ (noTrue_topPWarnTr t) rfl rfl rfl rfl
    (bodyseg_top_p_body env _ st)

theorem cleanseg_think_toggle (env : ParamsEnv) (should : Bool) (st : ParamsSt) :
    CleanSeg (control_thinking_budget_toggle env should st) := by
  unfold control_thinking_budget_toggle
  exact cleanseg_pwHandler _ _ _ _ _ _ rfl rfl rfl rfl rfl (bodyseg_think_toggle_body env should st)

theorem cleanseg_adjust_thinking_budget (cfg : Config) (env : ParamsEnv) (e : Effort)
    (st : ParamsSt) : CleanSeg (adjust_thinking_budget cfg env e st) := by
  unfold adjust_thinking_budget
  split
  · exact cleanseg_leafOk _ _ rfl
  · exact cleanseg_pwHandler _ _ _ _ _ _ rfl rfl rfl rfl rfl (bodyseg_budget_body env _ st)

theorem cleanseg_handle_thinking (cfg : Config) (env : ParamsEnv) (e : Effort)
    (st : ParamsSt) : CleanSeg (handle_thinking_budget cfg env e st) := by
  unfold handle_thinking_budget
  cases e with
  | noneVal =>
    refine cleanseg_pseq _ _ (cleanseg_think_toggle env _ st) ?_
    intro st2
    split
    · exact cleanseg_adjust_thinking_budget cfg env .noneVal st2
    · exact cleanseg_leafOk _ _ rfl
  | intVal n =>
    exact cleanseg_pseq _ _ (cleanseg_think_toggle env _ st)
      (fun st2 => cleanseg_adjust_thinking_budget cfg env _ st2)
  | strVal s =>
    exact cleanseg_pseq _ _ (cleanseg_think_toggle env _ st)
      (fun st2 => cleanseg_adjust_thinking_budget cfg env _ st2)
  | otherVal =>
    exact cleanseg_pseq _ _ (cleanseg_think_toggle env _ st)
      (fun st2 => cleanseg_adjust_thinking_budget cfg env _ st2)

theorem cleanseg_adjust_google_search (cfg : Config) (env : ParamsEnv) (tools : ToolsParam)
    (st : ParamsSt) : CleanSeg (adjust_google_search cfg env tools st) := by
  unfold adjust_google_search
  exact cleanseg_pwHandler _ _ _ _ _ _ rfl rfl rfl rfl rfl (bodyseg_search_body env _ st)

theorem trpred_ckThen_false (p : Ev → Bool) (pred : String → Bool) (stage : String)
    (st : ParamsSt) (k : ParamsSt → POut) (hpred : pred stage = false)
    (hf : p (.checkpoint stage false) = true) (h : ∀ st2, TrPred p (k st2)) :
    TrPred p (ckThen pred stage st k) := by
  unfold ckThen
  split
  · simp_all
  · exact trpred_withEv p _ _ hf (h st)

theorem noTrue_url_body (env : ParamsEnv) (st : ParamsSt)
    (h : env.pred "点击URLCONTEXT" = false) :
    TrPred (fun e => !e.isTrueCheckpoint) (open_url_content_body env st) := by
  unfold open_url_content_body
  refine trpred_withEv _ _ _ rfl ?_
  split
  · exact trpred_pfail _ _ _
  · refine trpred_pseq _ _ _ ?_ ?_
    · split
      · split
        · exact trpred_pfail _ _ _
        · refine trpred_withEv _ _ _ rfl ?_
          refine trpred_withEv _ _ _ rfl ?_
          exact trpred_leaf _ _ _ _ rfl
      · exact trpred_leaf _ _ _ _ rfl
    · intro st2
      refine trpred_withEv _ _ _ rfl ?_
      split
      · exact trpred_pfail _ _ _
      · split
        · split
          · exact trpred_pfail _ _ _
          · refine trpred_withEv _ _ _ rfl ?_
            refine trpred_ckThen_false _ _ _ _ _ h rfl ?_
            intro st3
            exact trpred_leaf _ _ _ _ rfl
        · exact trpred_leaf _ _ _ _ rfl

theorem cleanseg_open_url_content (env : ParamsEnv) (st : ParamsSt)
    (h : env.pred "点击URLCONTEXT" = false) : CleanSeg (open_url_content env st) := by
  have hb := noTrue_url_body env st h
  unfold open_url_content
  rcases hbody : open_url_content_body env st with ⟨r, st2, tr⟩
  rw [hbody] at hb
  simp only [TrPred] at hb
  cases r with
  | ok _ =>
    refine ⟨⟨noMutAfterTrue_of_noTrue tr hb, fun _ => hb⟩, Or.inl rfl⟩
  | error e =>
    have htr : noTrueCkpt (tr ++ [.logErr "url_context_error"]) = true := by
      simp only [noTrueCkpt, List.all_append, Bool.and_eq_true]
      exact ⟨hb, rfl⟩
    refine ⟨⟨noMutAfterTrue_of_noTrue _ htr, fun _ => htr⟩, Or.inl rfl⟩

/-- Claim C2 (corrected, the positive part): in adjust_parameters, as
long as the disconnect predicate is not read as true at the one
checkpoint buried inside _open_url_content (whose handler swallows every
exception), (a) no UI mutation ever occurs after a positive disconnect
check, (b) the abandonment error is the only error the operation can
propagate, and (c) a positive disconnect check forces the operation to
end with the abandonment error. -/
theorem c2_adjust_parameters_disconnect (cfg : Config) (env : ParamsEnv) (req : RequestParams)
    (modelId : String) (models : List ModelEntry) (st : ParamsSt)
    (h : env.pred "点击URLCONTEXT" = false) :
    noMutAfterTrue (adjust_parameters cfg env req modelId models st).2.2 = true
    ∧ (∀ e, (adjust_parameters cfg env req modelId models st).1 = .error e →
        ∃ s, e = .clientDisconnected s)
    ∧ ((adjust_parameters cfg env req modelId models st).2.2.any
        (fun e => e.isTrueCheckpoint) = true →
        isDiscResult (adjust_parameters cfg env req modelId models st).1 = true) := by
  have hc : CleanSeg (adjust_parameters cfg env req modelId models st) := by
    unfold adjust_parameters
    refine cleanseg_ckThen _ _ _ _ ?_
    intro st1
    refine cleanseg_pseq _ _ (cleanseg_adjust_temperature env _ st1) ?_
    intro st2
    refine cleanseg_ckThen _ _ _ _ ?_
    intro st3
    refine cleanseg_pseq _ _ (cleanseg_adjust_max_tokens env _ modelId models st3) ?_
    intro st4
    refine cleanseg_ckThen _ _ _ _ ?_
    intro st5
    refine cleanseg_pseq _ _ (cleanseg_adjust_stop_sequences env _ st5) ?_
    intro st6
    refine cleanseg_ckThen _ _ _ _ ?_
    intro st7
    refine cleanseg_pseq _ _ (cleanseg_adjust_top_p env _ st7) ?_
    intro st8
    refine cleanseg_ckThen _ _ _ _ ?_
    intro st9
    refine cleanseg_pseq _ _ ?_ ?_
    · split
      · exact cleanseg_open_url_content env st9 h
      · exact cleanseg_leafOk _ _ rfl
    · intro st10
      refine cleanseg_pseq _ _ (cleanseg_handle_thinking cfg env _ st10) ?_
      intro st11
      exact cleanseg_adjust_google_search cfg env _ st11
  obtain ⟨⟨h1, h2⟩, h3⟩ := hc
  refine ⟨h1, ?_, ?_⟩
  · intro e he
    cases h3 with
    | inl hok => rw [hok] at he; exact absurd he (by simp)
    | inr hd =>
      rw [he] at hd
      cases e with
      | clientDisconnected s => exact ⟨s, rfl⟩
      | timeoutError s => simp [isDiscResult] at hd
      | valueError s => simp [isDiscResult] at hd
      | otherError s => simp [isDiscResult] at hd
  · intro hany
    by_contra hnd
    have hnd2 : isDiscResult (adjust_parameters cfg env req modelId models st).1 = false :=
      Bool.not_eq_true _ ▸ (by simpa using hnd)
    have hno := h2 hnd2
    simp only [noTrueCkpt, List.all_eq_true] at hno
    simp only [List.any_eq_true] at hany
    obtain ⟨e, he, he2⟩ := hany
    have := hno e he
    simp [he2] at this

/-- A benign request selecting simple values. -/
def reqOk : RequestParams :=
  { temperature := some 1, max_output_tokens := some 1024, stop := some (.listVal []),
    top_p := some 1, reasoning_effort := .noneVal, tools := .absent }

/-- Page state with the URL-context toggle off and the search toggle on. -/
def stUrl : ParamsSt :=
  { ui := { uiOk with urlCtxChecked := false, searchChecked := true }, cache := cacheEmpty }

/-- Environment whose disconnect predicate turns true exactly at the
checkpoint inside _open_url_content (reached right after the URL-context
click); temperature and top_p controls never become visible. -/
def urlDiscPred : String → Bool := fun s => s == "点击URLCONTEXT"

def envUrlDisc : ParamsEnv :=
  { envOk with pred := urlDiscPred, tempVisible := false, topPVisible := false }

/-- Claim C2 counterexample: the disconnect predicate returns true at
the 点击URLCONTEXT checkpoint (a positive checkpoint event is in the
trace), yet adjust_parameters completes without raising any error, and
UI mutations (the thinking-budget and search toggle clicks) occur after
that positive check — the abandonment error is not raised and
subsequent UI mutation does occur. -/
theorem c2_counterexample :
    (adjust_parameters cfgFix envUrlDisc reqOk "m" [] stUrl).1 = .ok ()
    ∧ (adjust_parameters cfgFix envUrlDisc reqOk "m" [] stUrl).2.2.any
        (fun e => e.isTrueCheckpoint) = true
    ∧ noMutAfterTrue (adjust_parameters cfgFix envUrlDisc reqOk "m" [] stUrl).2.2 = false := by
  refine ⟨rfl, rfl, rfl⟩

/-- Witness for c2_adjust_parameters_disconnect with the benign
never-disconnecting environment. -/
theorem c2_witness :
    noMutAfterTrue (adjust_parameters cfgFix envOk reqOk "m" [] stOk).2.2 = true
    ∧ (∀ e, (adjust_parameters cfgFix envOk reqOk "m" [] stOk).1 = .error e →
        ∃ s, e = .clientDisconnected s)
    ∧ ((adjust_parameters cfgFix envOk reqOk "m" [] stOk).2.2.any
        (fun e => e.isTrueCheckpoint) = true →
        isDiscResult (adjust_parameters cfgFix envOk reqOk "m" [] stOk).1 = true) :=
  c2_adjust_parameters_disconnect cfgFix envOk reqOk "m" [] stOk rfl

/-- A diagnostic snapshot of the temperature routine. -/
def isTempSnapshot (e : Ev) : Bool :=
  e == .snapshot "temperature_verify_fail" || e == .snapshot "temperature_value_error"
    || e == .snapshot "temperature_playwright_error"

/-- Cache discipline of one temperature-routine segment relative to the
entry state: the temperature entry is untouched (and no temperature
snapshot was captured), or it was written with a value that equals the
live control value read back (and no snapshot was captured), or it was
evicted. -/
def TempOut (base : ParamsSt) (o : POut) : Prop :=
  (o.2.1.cache.temperature = base.cache.temperature ∧ o.2.2.any isTempSnapshot = false)
  ∨ (∃ v, o.2.1.cache.temperature = some v ∧ o.2.1.ui.tempValue = some v
      ∧ o.2.2.any isTempSnapshot = false)
  ∨ o.2.1.cache.temperature = none

theorem tempout_withEv (base : ParamsSt) (e : Ev) (o : POut) (he : isTempSnapshot e = false)
    (h : TempOut base o) : TempOut base (withEv e o) := by
  obtain ⟨r, st, tr⟩ := o
  simp only [withEv, TempOut, List.any_cons, he, Bool.false_or] at h ⊢
  exact h

theorem tempout_keep (base : ParamsSt) (r : Except PyErr Unit) (st2 : ParamsSt) (evs : List Ev)
    (hc : st2.cache.temperature = base.cache.temperature)
    (hs : evs.any isTempSnapshot = false) : TempOut base (r, st2, evs) :=
  Or.inl ⟨hc, hs⟩

theorem tempout_evict (base : ParamsSt) (r : Except PyErr Unit) (st2 : ParamsSt) (evs : List Ev)
    (h : st2.cache.temperature = none) : TempOut base (r, st2, evs) :=
  Or.inr (Or.inr h)

theorem tempout_write (base : ParamsSt) (r : Except PyErr Unit) (st1 : ParamsSt) (v : ℚ)
    (evs : List Ev) (hui : st1.ui.tempValue = some v) (hs : evs.any isTempSnapshot = false) :
    TempOut base (r, setCacheTemp v st1, evs) :=
  Or.inr (Or.inl ⟨v, rfl, hui, hs⟩)

theorem tempout_ckThen (base : ParamsSt) (pred : String → Bool) (stage : String)
    (stP : ParamsSt) (k : ParamsSt → POut)
    (hc : stP.cache.temperature = base.cache.temperature)
    (h : TempOut base (k stP)) : TempOut base (ckThen pred stage stP k) := by
  unfold ckThen
  split
  · exact tempout_keep _ _ _ _ hc rfl
  · exact tempout_withEv _ _ _ rfl h

theorem tempout_body (env : ParamsEnv) (clamped : ℚ) (st : ParamsSt) :
    TempOut st (adjust_temperature_body env clamped st) := by
  unfold adjust_temperature_body
  refine tempout_withEv _ _ _ rfl ?_
  split
  · exact tempout_keep _ _ _ _ rfl rfl
  · refine tempout_ckThen _ _ _ _ _ rfl ?_
    refine tempout_withEv _ _ _ rfl ?_
    split
    · exact tempout_keep _ _ _ _ rfl rfl
    · refine tempout_ckThen _ _ _ _ _ rfl ?_
      split
      · exact tempout_keep _ _ _ _ rfl rfl
      · rename_i current hcur
        split
        · exact tempout_write _ _ _ _ _ hcur rfl
        · split
          · exact tempout_keep _ _ _ _ rfl rfl
          · refine tempout_withEv _ _ _ rfl ?_
            refine tempout_ckThen _ _ _ _ _ rfl ?_
            refine tempout_withEv _ _ _ rfl ?_
            refine tempout_withEv _ _ _ rfl ?_
            split
            · exact tempout_keep _ _ _ _ rfl rfl
            · split
              · exact tempout_keep _ _ _ _ rfl rfl
              · rename_i newVal hnew
                split
                · exact tempout_write _ _ _ _ _ hnew rfl
                · exact tempout_evict _ _ _ _ rfl

theorem tempsnap_warnTr (t : ℚ) : (tempWarnTr t).any isTempSnapshot = false := by
  unfold tempWarnTr
  split <;> rfl

/-- The temperature cache invariant at the routine level: an entry
present after the call was either already present before the call with
the same value, or equals the control value read back from the live UI;
and a captured temperature snapshot (verification failure or interaction
error) implies the entry was evicted. -/
theorem adjust_temperature_cache_verified (env : ParamsEnv) (t : ℚ) (st : ParamsSt) :
    (∀ v, (adjust_temperature env t st).2.1.cache.temperature = some v →
      st.cache.temperature = some v
      ∨ (adjust_temperature env t st).2.1.ui.tempValue = some v)
    ∧ ((adjust_temperature env t st).2.2.any isTempSnapshot = true →
        (adjust_temperature env t st).2.1.cache.temperature = none) := by
  unfold adjust_temperature
  split
  · refine ⟨fun v hv => Or.inl hv, ?_⟩
    rw [tempsnap_warnTr t]
    intro h
    exact absurd h (by simp)
  · have hb := tempout_body env (clampTemp t) st
    rcases hbody : adjust_temperature_body env (clampTemp t) st with ⟨r, st2, tr⟩
    rw [hbody] at hb
    cases r with
    | ok _ =>
      simp only [pwHandler]
      rcases hb with ⟨hc, hs⟩ | ⟨v, hc, hui, hs⟩ | hc
      · refine ⟨fun w hw => Or.inl (hc ▸ hw), ?_⟩
        intro hany
        simp only [List.any_append, tempsnap_warnTr t, hs] at hany
        exact absurd hany (by simp)
      · refine ⟨fun w hw => ?_, ?_⟩
        · right
          rw [hc] at hw
          rw [hui]
          exact hw ▸ rfl
        · intro hany
          simp only [List.any_append, tempsnap_warnTr t, hs] at hany
          exact absurd hany (by simp)
      · exact ⟨fun w hw => absurd (hc ▸ hw) (by simp), fun _ => hc⟩
    | error e =>
      cases e <;>
        simp only [pwHandler] <;>
        exact ⟨fun w hw => absurd hw (by simp [popCacheTemp]), fun _ => rfl⟩

/-- Events other than the stop-sequence error snapshot. -/
def notStopSnap (e : Ev) : Bool := e != Ev.snapshot "stop_sequence_error"

theorem noStopSnap_removeChipsGo (env : ParamsEnv) :
    ∀ fuel removed maxR st, TrPred notStopSnap (removeChipsGo env fuel removed maxR st) := by
  intro fuel
  induction fuel with
  | zero =>
    intro removed maxR st
    rw [removeChipsGo]
    refine trpred_withEv _ _ _ rfl ?_
    split
    · exact trpred_leaf _ _ _ _ rfl
    · exact trpred_leaf _ _ _ _ rfl
  | succ n ih =>
    intro removed maxR st
    rw [removeChipsGo]
    refine trpred_withEv _ _ _ rfl ?_
    split
    · refine trpred_ckThen _ _ _ _ _ (fun b => by cases b <;> rfl) ?_
      intro st2
      split
      · exact trpred_leaf _ _ _ _ rfl
      · refine trpred_withEv _ _ _ rfl ?_
        refine trpred_withEv _ _ _ rfl ?_
        exact ih (removed + 1) maxR _
    · exact trpred_leaf _ _ _ _ rfl

theorem noStopSnap_insertStops (env : ParamsEnv) :
    ∀ seqs st, TrPred notStopSnap (insertStops env seqs st) := by
  intro seqs
  induction seqs with
  | nil => intro st; exact trpred_leaf _ _ _ _ rfl
  | cons s rest ih =>
    intro st
    simp only [insertStops]
    split
    · exact trpred_pfail _ _ _
    · refine trpred_withEv _ _ _ rfl ?_
      split
      · exact trpred_pfail _ _ _
      · refine trpred_withEv _ _ _ rfl ?_
        refine trpred_withEv _ _ _ rfl ?_
        exact ih _

theorem noStopSnap_stop_body (env : ParamsEnv) (sp : StopParam) (st : ParamsSt) :
    TrPred notStopSnap (adjust_stop_sequences_body env sp st) := by
  unfold adjust_stop_sequences_body removeChipsLoop
  refine trpred_withEv _ _ _ rfl ?_
  refine trpred_pseq _ _ _ (noStopSnap_removeChipsGo env _ 0 _ st) ?_
  intro st2
  refine trpred_pseq _ _ _ ?_ ?_
  · split
    · exact trpred_leaf _ _ _ _ rfl
    · refine trpred_withEv _ _ _ rfl ?_
      split
      · exact trpred_pfail _ _ _
      · exact noStopSnap_insertStops env _ st2
  · intro st3
    exact trpred_leaf _ _ _ _ rfl

theorem pseq_ok_parts (o : POut) (k : ParamsSt → POut) (h : (pseq o k).1 = .ok ()) :
    o.1 = .ok () ∧ (k o.2.1).1 = .ok () ∧ (pseq o k).2.1 = (k o.2.1).2.1 := by
  rcases o with ⟨r, st, tr⟩
  cases r with
  | error e => simp [pseq] at h
  | ok _ =>
    rcases hk : k st with ⟨r2, st2, tr2⟩
    simp only [pseq, hk] at h ⊢
    exact ⟨trivial, h, trivial⟩

theorem stop_body_ok_commit (env : ParamsEnv) (sp : StopParam) (st : ParamsSt) :
    (adjust_stop_sequences_body env sp st).1 = .ok () →
    (adjust_stop_sequences_body env sp st).2.1.cache.stop_sequences
      = some (normalizeStops sp) := by
  intro h
  unfold adjust_stop_sequences_body at h ⊢
  obtain ⟨hA, hB, hs⟩ := pseq_ok_parts _ _ h
  obtain ⟨hC, hN, hs2⟩ := pseq_ok_parts _ _ hB
  show (pseq _ _).2.1.cache.stop_sequences = _
  rw [hs]
  show (pseq _ _).2.1.cache.stop_sequences = _
  rw [hs2]
  rfl

/-- The stop-sequence cache behavior: when the routine captured its
error snapshot (an exception reached the outer handler) the entry is
evicted; otherwise the entry holds exactly the normalized requested set
(the requested set, not a value read back from the UI). -/
theorem adjust_stop_sequences_cache (env : ParamsEnv) (sp : StopParam) (st : ParamsSt) :
    ((adjust_stop_sequences env sp st).2.2.any (fun e => e == .snapshot "stop_sequence_error")
        = true →
      (adjust_stop_sequences env sp st).2.1.cache.stop_sequences = none)
    ∧ ((adjust_stop_sequences env sp st).2.2.any (fun e => e == .snapshot "stop_sequence_error")
        = false →
      (adjust_stop_sequences env sp st).2.1.cache.stop_sequences
        = some (normalizeStops sp)) := by
  unfold adjust_stop_sequences
  split
  · rename_i hhit
    refine ⟨fun h => absurd h (by simp), fun _ => ?_⟩
    unfold stopCacheHit at hhit
    rcases hc : st.cache.stop_sequences with _ | v
    · rw [hc] at hhit; simp at hhit
    · rw [hc] at hhit
      simp only [beq_iff_eq] at hhit
      rw [hhit]
  · have hsnap := noStopSnap_stop_body env sp st
    have hcommit := stop_body_ok_commit env sp st
    rcases hbody : adjust_stop_sequences_body env sp st with ⟨r, st2, tr⟩
    rw [hbody] at hsnap hcommit
    simp only [TrPred] at hsnap
    have htr : tr.any (fun e => e == .snapshot "stop_sequence_error") = false := by
      rw [List.any_eq_false]
      intro e he
      have := List.all_eq_true.mp hsnap e he
      simpa [notStopSnap] using this
    cases r with
    | ok _ =>
      simp only [pwHandler, List.nil_append]
      exact ⟨fun h => absurd h (by simp [htr]), fun _ => hcommit rfl⟩
    | error e =>
      cases e <;>
        simp only [pwHandler, List.nil_append] <;>
        exact ⟨fun _ => rfl, fun h => absurd h (by simp)⟩

/-- Claim C1 (corrected): the verification invariant holds for the
temperature entry — present only if already present before the call or
equal to the value read back from the live control, with any snapshot
(verification failure or interaction error) implying eviction — while
the stop-sequence entry is committed as the requested normalized set
whenever no exception reached the outer handler, without any read-back
verification, and is evicted only when the outer handler ran (captured
its snapshot). -/
theorem c1_cache_invariant (env : ParamsEnv) (t : ℚ) (sp : StopParam) (st st2 : ParamsSt) :
    ((∀ v, (adjust_temperature env t st).2.1.cache.temperature = some v →
      st.cache.temperature = some v
      ∨ (adjust_temperature env t st).2.1.ui.tempValue = some v)
    ∧ ((adjust_temperature env t st).2.2.any isTempSnapshot = true →
        (adjust_temperature env t st).2.1.cache.temperature = none))
    ∧ (((adjust_stop_sequences env sp st2).2.2.any
          (fun e => e == .snapshot "stop_sequence_error") = true →
        (adjust_stop_sequences env sp st2).2.1.cache.stop_sequences = none)
    ∧ ((adjust_stop_sequences env sp st2).2.2.any
          (fun e => e == .snapshot "stop_sequence_error") = false →
        (adjust_stop_sequences env sp st2).2.1.cache.stop_sequences
          = some (normalizeStops sp))) :=
  ⟨adjust_temperature_cache_verified env t st, adjust_stop_sequences_cache env sp st2⟩

/-- Environment in which every chip-removal click raises (the inner
except swallows it and breaks the removal loop). -/
def envChip : ParamsEnv := { envOk with chipClickFails := fun _ => true }

/-- Page state with one leftover stop-sequence chip. -/
def stChip : ParamsSt := { ui := { uiOk with chips := ["x"] }, cache := cacheEmpty }

/-- Claim C1 counterexample: a chip-removal click failure (an
interaction error) is swallowed, the routine returns normally and
commits the requested normalized set to the cache, while the live UI
still holds the old chip plus the new sequence — the cache entry is
present but was not verified equal to the live UI value, and the
interaction error did not evict it. -/
theorem c1_counterexample :
    envChip.chipClickFails 0 = true
    ∧ (adjust_stop_sequences envChip (.listVal ["a"]) stChip).1 = .ok ()
    ∧ (adjust_stop_sequences envChip (.listVal ["a"]) stChip).2.1.cache.stop_sequences
        = some (normalizeStops (.listVal ["a"]))
    ∧ (adjust_stop_sequences envChip (.listVal ["a"]) stChip).2.1.ui.chips = ["x", "a"]
    ∧ normalizeStops (.listVal ["a"]) ≠ (["x", "a"] : List String).toFinset := by
  refine ⟨rfl, rfl, rfl, rfl, by decide⟩

/-- Witness for c1_cache_invariant: the temperature entry written after
a matching read, and the stop-sequence entry committed by a clean run. -/
theorem c1_witness :
    (stOk.cache.temperature = some 1
      ∨ (adjust_temperature envOk 1 stOk).2.1.ui.tempValue = some 1)
    ∧ (adjust_stop_sequences envOk (.listVal ["a"]) stOk).2.1.cache.stop_sequences
        = some (normalizeStops (.listVal ["a"])) :=
  ⟨(c1_cache_invariant envOk 1 (.listVal ["a"]) stOk stOk).1.1 1 rfl,
   (c1_cache_invariant envOk 1 (.listVal ["a"]) stOk stOk).2.2 rfl⟩

/-- Every fill into the given control carries the given value. -/
def fillOkEv (ctrl : String) (v : PVal) (e : Ev) : Bool :=
  match e with
  | .fillValue c w => !(c == ctrl) || w == v
  | _ => true

/-- Body-trace discipline of the temperature routine for the clamping
claim: fills carry the clamped value and the only warning tag is the
verification one. -/
def c3evTemp (clamped : ℚ) (e : Ev) : Bool :=
  match e with
  | .fillValue c w => !(c == "TEMPERATURE_INPUT") || w == PVal.num clamped
  | .logWarn tag => tag != "temperature_clamped"
  | _ => true

theorem trpred_c3_temp_body (env : ParamsEnv) (clamped : ℚ) (st : ParamsSt) :
    TrPred (c3evTemp clamped) (adjust_temperature_body env clamped st) := by
  unfold adjust_temperature_body
  refine trpred_withEv _ _ _ rfl ?_
  split
  · exact trpred_pfail _ _ _
  · refine trpred_ckThen _ _ _ _ _ (fun b => rfl) ?_
    intro st1
    refine trpred_withEv _ _ _ rfl ?_
    split
    · exact trpred_pfail _ _ _
    · refine trpred_ckThen _ _ _ _ _ (fun b => rfl) ?_
      intro st2
      split
      · exact trpred_pfail _ _ _
      · split
        · exact trpred_leaf _ _ _ _ rfl
        · split
          · exact trpred_pfail _ _ _
          · refine trpred_withEv _ _ _ (by simp [c3evTemp]) ?_
            refine trpred_ckThen _ _ _ _ _ (fun b => rfl) ?_
            intro st3
            refine trpred_withEv _ _ _ rfl ?_
            refine trpred_withEv _ _ _ rfl ?_
            split
            · exact trpred_pfail _ _ _
            · split
              · exact trpred_pfail _ _ _
              · split
                · exact trpred_leaf _ _ _ _ rfl
                · exact trpred_leaf _ _ _ _ (by simp [c3evTemp])

theorem all_of_trall (p q : Ev → Bool) (tr : List Ev)
    (himp : ∀ e, p e = true → q e = true) (h : tr.all p = true) : tr.all q = true := by
  rw [List.all_eq_true] at h ⊢
  exact fun e he => himp e (h e he)

theorem any_false_of_trall (p q : Ev → Bool) (tr : List Ev)
    (himp : ∀ e, p e = true → q e = false) (h : tr.all p = true) : tr.any q = false := by
  rw [List.any_eq_false]
  rw [List.all_eq_true] at h
  intro e he
  simp [himp e (h e he)]

theorem tempWarn_any (t : ℚ) :
    (tempWarnTr t).any (fun e => e == .logWarn "temperature_clamped")
      = decide (clampTemp t ≠ t) := by
  unfold tempWarnTr
  split <;> simp_all

theorem c3_temp_route (env : ParamsEnv) (t : ℚ) (st : ParamsSt) :
    (adjust_temperature env t st).2.2.all
        (fun e => fillOkEv "TEMPERATURE_INPUT" (.num (clampTemp t)) e) = true
    ∧ ((adjust_temperature env t st).2.2.any
        (fun e => e == .logWarn "temperature_clamped") = true ↔ clampTemp t ≠ t) := by
  have hbp := trpred_c3_temp_body env (clampTemp t) st
  have himpf : ∀ e, c3evTemp (clampTemp t) e = true →
      fillOkEv "TEMPERATURE_INPUT" (.num (clampTemp t)) e = true := by
    intro e he
    cases e <;> simp_all [c3evTemp, fillOkEv]
  have himpw : ∀ e, c3evTemp (clampTemp t) e = true →
      (e == Ev.logWarn "temperature_clamped") = false := by
    intro e he
    cases e <;> simp_all [c3evTemp]
  have hwf : (tempWarnTr t).all
      (fun e => fillOkEv "TEMPERATURE_INPUT" (.num (clampTemp t)) e) = true := by
    unfold tempWarnTr
    split <;> rfl
  unfold adjust_temperature
  split
  · refine ⟨hwf, ?_⟩
    rw [show ((.ok (), st, tempWarnTr t) : POut).2.2 = tempWarnTr t from rfl, tempWarn_any t]
    simp
  · rcases hbody : adjust_temperature_body env (clampTemp t) st with ⟨r, st2, tr⟩
    rw [hbody] at hbp
    have hfill := all_of_trall _ _ tr himpf hbp
    have hwarn := any_false_of_trall _ _ tr himpw hbp
    cases r with
    | ok _ =>
      simp only [pwHandler]
      refine ⟨by simp [List.all_append, hfill, hwf], ?_⟩
      simp only [List.any_append, hwarn, tempWarn_any t, Bool.or_false]
      simp
    | error e =>
      have he1 : ([Ev.logErr "temperature_error", Ev.snapshot "temperature_playwright_error"].all
          (fun e => fillOkEv "TEMPERATURE_INPUT" (.num (clampTemp t)) e)) = true := rfl
      have he2 : ([Ev.logErr "temperature_value_error", Ev.snapshot "temperature_value_error"].all
          (fun e => fillOkEv "TEMPERATURE_INPUT" (.num (clampTemp t)) e)) = true := rfl
      have ha1 : ([Ev.logErr "temperature_error", Ev.snapshot "temperature_playwright_error"].any
          (fun e => e == Ev.logWarn "temperature_clamped")) = false := rfl
      have ha2 : ([Ev.logErr "temperature_value_error", Ev.snapshot "temperature_value_error"].any
          (fun e => e == Ev.logWarn "temperature_clamped")) = false := rfl
      cases e <;>
        (simp only [pwHandler]
         refine ⟨?_, ?_⟩
         · simp [List.all_append, hfill, hwf, he1, he2]
         · simp only [List.any_append, hwarn, tempWarn_any t, ha1, ha2, Bool.or_false]
           simp)

/-- Body-trace discipline of the top_p routine for the clamping claim. -/
def c3evTopP (clamped : ℚ) (e : Ev) : Bool :=
  match e with
  | .fillValue c w => !(c == "TOP_P_INPUT") || w == PVal.num clamped
  | .logWarn tag => tag != "top_p_clamped"
  | _ => true

theorem trpred_c3_top_p_body (env : ParamsEnv) (clamped : ℚ) (st : ParamsSt) :
    TrPred (c3evTopP clamped) (adjust_top_p_body env clamped st) := by
  unfold adjust_top_p_body
  refine trpred_withEv _ _ _ rfl ?_
  split
  · exact trpred_pfail _ _ _
  · refine trpred_ckThen _ _ _ _ _ (fun b => rfl) ?_
    intro st1
    refine trpred_withEv _ _ _ rfl ?_
    split
    · exact trpred_pfail _ _ _
    · split
      · exact trpred_pfail _ _ _
      · split
        · split
          · exact trpred_pfail _ _ _
          · refine trpred_withEv _ _ _ (by simp [c3evTopP]) ?_
            refine trpred_ckThen _ _ _ _ _ (fun b => rfl) ?_
            intro st2
            refine trpred_withEv _ _ _ rfl ?_
            refine trpred_withEv _ _ _ rfl ?_
            split
            · exact trpred_pfail _ _ _
            · split
              · exact trpred_pfail _ _ _
              · split
                · exact trpred_leaf _ _ _ _ rfl
                · exact trpred_leaf _ _ _ _ (by simp [c3evTopP])
        · exact trpred_leaf _ _ _ _ rfl

theorem topPWarn_any (t : ℚ) :
    (topPWarnTr t).any (fun e => e == .logWarn "top_p_clamped")
      = absDiffGt (clampTopP t) t eps9 := by
  unfold topPWarnTr
  split <;> simp_all

theorem c3_top_p_route (env : ParamsEnv) (t : ℚ) (st : ParamsSt) :
    (adjust_top_p env t st).2.2.all
        (fun e => fillOkEv "TOP_P_INPUT" (.num (clampTopP t)) e) = true
    ∧ ((adjust_top_p env t st).2.2.any
        (fun e => e == .logWarn "top_p_clamped") = true
        ↔ 1 / 1000000000 < |clampTopP t - t|) := by
  have hbp := trpred_c3_top_p_body env (clampTopP t) st
  have himpf : ∀ e, c3evTopP (clampTopP t) e = true →
      fillOkEv "TOP_P_INPUT" (.num (clampTopP t)) e = true := by
    intro e he
    cases e <;> simp_all [c3evTopP, fillOkEv]
  have himpw : ∀ e, c3evTopP (clampTopP t) e = true →
      (e == Ev.logWarn "top_p_clamped") = false := by
    intro e he
    cases e <;> simp_all [c3evTopP]
  have hwf : (topPWarnTr t).all
      (fun e => fillOkEv "TOP_P_INPUT" (.num (clampTopP t)) e) = true := by
    unfold topPWarnTr
    split <;> rfl
  have hgt : absDiffGt (clampTopP t) t eps9 = true ↔ 1 / 1000000000 < |clampTopP t - t| := by
    rw [absDiffGt_iff, eps9_val]
  unfold adjust_top_p
  rcases hbody : adjust_top_p_body env (clampTopP t) st with ⟨r, st2, tr⟩
  rw [hbody] at hbp
  have hfill := all_of_trall _ _ tr himpf hbp
  have hwarn := any_false_of_trall _ _ tr himpw hbp
  cases r with
  | ok _ =>
    simp only [pwHandler]
    refine ⟨by simp [List.all_append, hfill, hwf], ?_⟩
    simp only [List.any_append, hwarn, topPWarn_any t, Bool.or_false]
    exact hgt
  | error e =>
    have he1 : ([Ev.logErr "top_p_error", Ev.snapshot "top_p_error"].all
        (fun e => fillOkEv "TOP_P_INPUT" (.num (clampTopP t)) e)) = true := rfl
    have he2 : ([Ev.logErr "top_p_value_error", Ev.snapshot "top_p_value_error"].all
        (fun e => fillOkEv "TOP_P_INPUT" (.num (clampTopP t)) e)) = true := rfl
    have ha1 : ([Ev.logErr "top_p_error", Ev.snapshot "top_p_error"].any
        (fun e => e == Ev.logWarn "top_p_clamped")) = false := rfl
    have ha2 : ([Ev.logErr "top_p_value_error", Ev.snapshot "top_p_value_error"].any
        (fun e => e == Ev.logWarn "top_p_clamped")) = false := rfl
    cases e <;>
      (simp only [pwHandler]
       refine ⟨?_, ?_⟩
       · simp [List.all_append, hfill, hwf, he1, he2]
       · simp only [List.any_append, hwarn, topPWarn_any t, ha1, ha2, Bool.or_false]
         exact hgt)

/-- Body-trace discipline of the max-tokens routine for the clamping
claim. -/
def c3evMax (clamped : ℤ) (e : Ev) : Bool :=
  match e with
  | .fillValue c w => !(c == "MAX_OUTPUT_TOKENS") || w == PVal.intv clamped
  | .logWarn tag => tag != "max_tokens_clamped"
  | _ => true

theorem trpred_c3_max_body (env : ParamsEnv) (clamped : ℤ) (st : ParamsSt) :
    TrPred (c3evMax clamped) (adjust_max_tokens_body env clamped st) := by
  unfold adjust_max_tokens_body
  refine trpred_withEv _ _ _ rfl ?_
  split
  · exact trpred_pfail _ _ _
  · refine trpred_ckThen _ _ _ _ _ (fun b => rfl) ?_
    intro st1
    refine trpred_withEv _ _ _ rfl ?_
    split
    · exact trpred_pfail _ _ _
    · split
      · exact trpred_pfail _ _ _
      · split
        · exact trpred_leaf _ _ _ _ rfl
        · split
          · exact trpred_pfail _ _ _
          · refine trpred_withEv _ _ _ (by simp [c3evMax]) ?_
            refine trpred_ckThen _ _ _ _ _ (fun b => rfl) ?_
            intro st2
            refine trpred_withEv _ _ _ rfl ?_
            refine trpred_withEv _ _ _ rfl ?_
            split
            · exact trpred_pfail _ _ _
            · split
              · exact trpred_pfail _ _ _
              · split
                · exact trpred_leaf _ _ _ _ rfl
                · exact trpred_leaf _ _ _ _ (by simp [c3evMax])

theorem maxWarn_any (modelId : String) (models : List ModelEntry) (m : ℤ) :
    (maxWarnTr modelId models m).any (fun e => e == .logWarn "max_tokens_clamped")
      = decide (clampMaxTokens modelId models m ≠ m) := by
  unfold maxWarnTr
  split <;> simp_all

theorem c3_max_route (env : ParamsEnv) (m : ℤ) (modelId : String) (models : List ModelEntry)
    (st : ParamsSt) :
    (adjust_max_tokens env m modelId models st).2.2.all
        (fun e => fillOkEv "MAX_OUTPUT_TOKENS" (.intv (clampMaxTokens modelId models m)) e) = true
    ∧ ((adjust_max_tokens env m modelId models st).2.2.any
        (fun e => e == .logWarn "max_tokens_clamped") = true
        ↔ clampMaxTokens modelId models m ≠ m) := by
  have hbp := trpred_c3_max_body env (clampMaxTokens modelId models m) st
  have himpf : ∀ e, c3evMax (clampMaxTokens modelId models m) e = true →
      fillOkEv "MAX_OUTPUT_TOKENS" (.intv (clampMaxTokens modelId models m)) e = true := by
    intro e he
    cases e <;> simp_all [c3evMax, fillOkEv]
  have himpw : ∀ e, c3evMax (clampMaxTokens modelId models m) e = true →
      (e == Ev.logWarn "max_tokens_clamped") = false := by
    intro e he
    cases e <;> simp_all [c3evMax]
  have hwf : (maxWarnTr modelId models m).all
      (fun e => fillOkEv "MAX_OUTPUT_TOKENS" (.intv (clampMaxTokens modelId models m)) e) = true := by
    unfold maxWarnTr
    split <;> rfl
  unfold adjust_max_tokens
  split
  · refine ⟨hwf, ?_⟩
    rw [show ((.ok (), st, maxWarnTr modelId models m) : POut).2.2
      = maxWarnTr modelId models m from rfl, maxWarn_any modelId models m]
    simp
  · rcases hbody : adjust_max_tokens_body env (clampMaxTokens modelId models m) st
      with ⟨r, st2, tr⟩
    rw [hbody] at hbp
    have hfill := all_of_trall _ _ tr himpf hbp
    have hwarn := any_false_of_trall _ _ tr himpw hbp
    cases r with
    | ok _ =>
      simp only [pwHandler]
      refine ⟨by simp [List.all_append, hfill, hwf], ?_⟩
      simp only [List.any_append, hwarn, maxWarn_any modelId models m, Bool.or_false]
      simp
    | error e =>
      have he1 : ([Ev.logErr "max_tokens_error", Ev.snapshot "max_tokens_error"].all
          (fun e => fillOkEv "MAX_OUTPUT_TOKENS" (.intv (clampMaxTokens modelId models m)) e))
            = true := rfl
      have he2 : ([Ev.logErr "max_tokens_value_error", Ev.snapshot "max_tokens_value_error"].all
          (fun e => fillOkEv "MAX_OUTPUT_TOKENS" (.intv (clampMaxTokens modelId models m)) e))
            = true := rfl
      have ha1 : ([Ev.logErr "max_tokens_error", Ev.snapshot "max_tokens_error"].any
          (fun e => e == Ev.logWarn "max_tokens_clamped")) = false := rfl
      have ha2 : ([Ev.logErr "max_tokens_value_error", Ev.snapshot "max_tokens_value_error"].any
          (fun e => e == Ev.logWarn "max_tokens_clamped")) = false := rfl
      cases e <;>
        (simp only [pwHandler]
         refine ⟨?_, ?_⟩
         · simp [List.all_append, hfill, hwf, he1, he2]
         · simp only [List.any_append, hwarn, maxWarn_any modelId models m, ha1, ha2,
             Bool.or_false]
           simp)

/-- Claim C3 (corrected): every value written toward the UI is the
clamped value (clamp(t,0,2) for temperature, clamp(t,0,1) for top-p,
clamp(m,1,modelMax) for max tokens); the temperature and max-tokens
warnings fire exactly when clamping changed the value, but the top-p
warning fires only when the change exceeds 1e-9; and modelMax is the
catalog value only when the model id is a non-empty string, the catalog
non-empty, the entry found and its value a positive parseable int — the
hard default 65536 in every other case. -/
theorem c3_clamping (env : ParamsEnv) (t u : ℚ) (m : ℤ) (modelId : String)
    (models : List ModelEntry) (st st2 st3 : ParamsSt) :
    ((adjust_temperature env t st).2.2.all
        (fun e => fillOkEv "TEMPERATURE_INPUT" (.num (clampTemp t)) e) = true)
    ∧ ((adjust_temperature env t st).2.2.any
        (fun e => e == .logWarn "temperature_clamped") = true ↔ clampTemp t ≠ t)
    ∧ ((adjust_top_p env u st2).2.2.all
        (fun e => fillOkEv "TOP_P_INPUT" (.num (clampTopP u)) e) = true)
    ∧ ((adjust_top_p env u st2).2.2.any
        (fun e => e == .logWarn "top_p_clamped") = true
        ↔ 1 / 1000000000 < |clampTopP u - u|)
    ∧ ((adjust_max_tokens env m modelId models st3).2.2.all
        (fun e => fillOkEv "MAX_OUTPUT_TOKENS" (.intv (clampMaxTokens modelId models m)) e)
          = true)
    ∧ ((adjust_max_tokens env m modelId models st3).2.2.any
        (fun e => e == .logWarn "max_tokens_clamped") = true
        ↔ clampMaxTokens modelId models m ≠ m)
    ∧ clampTemp t = max 0 (min 2 t)
    ∧ clampTopP u = max 0 (min 1 u)
    ∧ clampMaxTokens modelId models m = max 1 (min (maxValForTokens modelId models) m)
    ∧ (∀ mm n, modelId ≠ "" → models ≠ [] →
        models.find? (fun x => x.id == modelId) = some mm →
        mm.supported_max_output_tokens = some (.intVal n) → 0 < n →
        maxValForTokens modelId models = n)
    ∧ (modelId ≠ "" → models.find? (fun x => x.id == modelId) = none →
        maxValForTokens modelId models = 65536)
    ∧ (∀ mm, models.find? (fun x => x.id == modelId) = some mm →
        (mm.supported_max_output_tokens = none ∨ mm.supported_max_output_tokens = some .bad
          ∨ (∃ n, mm.supported_max_output_tokens = some (.intVal n) ∧ n ≤ 0)) →
        maxValForTokens modelId models = 65536) := by
  obtain ⟨h1, h2⟩ := c3_temp_route env t st
  obtain ⟨h3, h4⟩ := c3_top_p_route env u st2
  obtain ⟨h5, h6⟩ := c3_max_route env m modelId models st3
  refine ⟨h1, h2, h3, h4, h5, h6, rfl, rfl, rfl, ?_, ?_, ?_⟩
  · intro mm n hid hne hfind hsup hpos
    unfold maxValForTokens
    rw [if_pos ⟨hid, hne⟩, hfind]
    simp [hsup, hpos]
  · intro hid hfind
    unfold maxValForTokens
    split
    · rw [hfind]
    · rfl
  · intro mm hfind hbad
    unfold maxValForTokens
    split
    · rw [hfind]
      rcases hbad with hb | hb | ⟨n, hb, hn⟩
      · simp [hb]
      · simp [hb]
      · simp [hb, show ¬ n > 0 from by omega]
    · rfl

/-- The rational 1 + 1/2000000000, within 1e-9 above the top-p range. -/
def tBig : ℚ := ⟨2000000001, 2000000000, by norm_num, by norm_num⟩

/-- Claim C3 counterexample: (a) requesting top_p = 1 + 1/2000000000
changes under clamping, yet no clamping warning is logged (the change
does not exceed 1e-9); (b) with an empty model id, the catalog entry
with that id and a positive supported_max_output_tokens of 100 is
findable, yet the bound used is the hard default 65536, not 100. -/
theorem c3_counterexample :
    (clampTopP tBig ≠ tBig
      ∧ (adjust_top_p envOk tBig stOk).2.2.any
          (fun e => e == .logWarn "top_p_clamped") = false)
    ∧ (maxValForTokens ""
          [{ id := "", supported_max_output_tokens := some (.intVal 100) }] = 65536
      ∧ ([({ id := "", supported_max_output_tokens := some (.intVal 100) } : ModelEntry)].find?
          (fun x => x.id == "")
            = some { id := "", supported_max_output_tokens := some (.intVal 100) })
      ∧ (100 : ℤ) > 0 ∧ (65536 : ℤ) ≠ 100) := by
  refine ⟨⟨by decide, rfl⟩, rfl, rfl, by decide, by decide⟩

/-- Witness for c3_clamping: a run of each routine in the benign
environment, plus the model-catalog bound facts at concrete inputs. -/
theorem c3_witness :
    ((adjust_temperature envOk 3 stOk).2.2.any
        (fun e => e == .logWarn "temperature_clamped") = true ↔ clampTemp 3 ≠ 3)
    ∧ maxValForTokens "m" [{ id := "m", supported_max_output_tokens := some (.intVal 100) }] = 100
    ∧ maxValForTokens "m" [{ id := "x", supported_max_output_tokens := some (.intVal 100) }]
        = 65536
    ∧ maxValForTokens "m" [{ id := "m", supported_max_output_tokens := some (.intVal 0) }]
        = 65536 :=
  ⟨(c3_clamping envOk 3 1 1024 "m" [] stOk stOk stOk).2.1,
   (c3_clamping envOk 3 1 1024 "m"
      [{ id := "m", supported_max_output_tokens := some (.intVal 100) }] stOk stOk stOk).2.2.2.2.2.2.2.2.2.1
      { id := "m", supported_max_output_tokens := some (.intVal 100) } 100
      (by decide) (by simp) rfl rfl (by decide),
   (c3_clamping envOk 3 1 1024 "m"
      [{ id := "x", supported_max_output_tokens := some (.intVal 100) }] stOk stOk stOk).2.2.2.2.2.2.2.2.2.2.1
      (by decide) rfl,
   (c3_clamping envOk 3 1 1024 "m"
      [{ id := "m", supported_max_output_tokens := some (.intVal 0) }] stOk stOk stOk).2.2.2.2.2.2.2.2.2.2.2
      { id := "m", supported_max_output_tokens := some (.intVal 0) } rfl
      (Or.inr (Or.inr ⟨0, rfl, by decide⟩))⟩

/-- The state after the removal loop has emptied the stop-chip row. -/
def clearChips (st : ParamsSt) : ParamsSt :=
  { st with ui := { st.ui with chips := [] } }

theorem clearChips_self (st : ParamsSt) (h : st.ui.chips = []) : clearChips st = st := by
  rcases st with ⟨⟨a, b, c, chips, d, e, f, g, h2⟩, cache⟩
  obtain rfl : chips = [] := h
  rfl

theorem clearChips_dropFirstChip (st : ParamsSt) :
    clearChips (dropFirstChip st) = clearChips st := rfl

/-- Outcome and final state pass through a trace-prefixing step. -/
theorem okSt_withEv (e : Ev) (o : POut) (r : Except PyErr Unit) (s : ParamsSt)
    (h : o.1 = r ∧ o.2.1 = s) : (withEv e o).1 = r ∧ (withEv e o).2.1 = s := h

/-- The outcome passes through a trace-prefixing step. -/
theorem fst_withEv (e : Ev) (o : POut) (r : Except PyErr Unit) (h : o.1 = r) :
    (withEv e o).1 = r := h

/-- Outcome and final chip row pass through a trace-prefixing step. -/
theorem chips_withEv (e : Ev) (o : POut) (r : Except PyErr Unit) (l : List String)
    (h : o.1 = r ∧ o.2.1.ui.chips = l) :
    (withEv e o).1 = r ∧ (withEv e o).2.1.ui.chips = l := h

/-- Outcome and final state pass through a quiet disconnect checkpoint. -/
theorem okSt_ckThen (pred : String → Bool) (stage : String) (st : ParamsSt)
    (k : ParamsSt → POut) (r : Except PyErr Unit) (s : ParamsSt)
    (hp : pred stage = false) (h : (k st).1 = r ∧ (k st).2.1 = s) :
    (ckThen pred stage st k).1 = r ∧ (ckThen pred stage st k).2.1 = s := by
  rw [ckThen, if_neg (by simp [hp])]
  exact h

/-- Outcome and final state of a guard whose condition is false. -/
theorem okSt_ite_false (c : Bool) (A B : POut) (r : Except PyErr Unit) (s : ParamsSt)
    (hb : c = false) (h : B.1 = r ∧ B.2.1 = s) :
    (if c = true then A else B).1 = r ∧ (if c = true then A else B).2.1 = s := by
  subst hb
  simpa using h

/-- Outcome and final chip row of a guard whose condition is false. -/
theorem chips_ite_false (c : Bool) (A B : POut) (r : Except PyErr Unit) (l : List String)
    (hb : c = false) (h : B.1 = r ∧ B.2.1.ui.chips = l) :
    (if c = true then A else B).1 = r ∧ (if c = true then A else B).2.1.ui.chips = l := by
  subst hb
  simpa using h

/-- In an environment whose disconnect predicate is quiet at the loop
stage and whose chip-remove clicks all succeed, the removal loop removes
every chip and returns normally (the ceiling initial count + 5 is never
reached). -/
theorem removeChipsGo_clean (env : ParamsEnv)
    (hp : env.pred "停止序列清除 - 循环开始" = false)
    (hc : ∀ n, env.chipClickFails n = false) :
    ∀ fuel removed maxR st, st.ui.chips.length ≤ fuel →
      st.ui.chips.length + removed ≤ maxR →
      (removeChipsGo env fuel removed maxR st).1 = .ok ()
      ∧ (removeChipsGo env fuel removed maxR st).2.1 = clearChips st := by
  intro fuel
  induction fuel with
  | zero =>
    intro removed maxR st hlen _
    have hch : st.ui.chips = [] := List.length_eq_zero.mp (Nat.le_zero.mp hlen)
    rw [removeChipsGo]
    refine okSt_withEv _ _ _ _ ?_
    split
    · exact ⟨rfl, (clearChips_self st hch).symm⟩
    · exact ⟨rfl, (clearChips_self st hch).symm⟩
  | succ n ih =>
    intro removed maxR st hlen hmax
    rw [removeChipsGo]
    refine okSt_withEv _ _ _ _ ?_
    split
    · rename_i hcond
      refine okSt_ckThen _ _ _ _ _ _ hp ?_
      refine okSt_ite_false _ _ _ _ _ (hc removed) ?_
      refine okSt_withEv _ _ _ _ (okSt_withEv _ _ _ _ ?_)
      rcases hch : st.ui.chips with _ | ⟨c, rest⟩
      · rw [hch] at hcond
        exact absurd hcond.1 (by simp)
      · have h1 : (dropFirstChip st).ui.chips.length ≤ n := by
          show st.ui.chips.tail.length ≤ n
          rw [hch] at hlen ⊢
          simp only [List.tail_cons]
          simp only [List.length_cons] at hlen
          omega
        have h2 : (dropFirstChip st).ui.chips.length + (removed + 1) ≤ maxR := by
          show st.ui.chips.tail.length + (removed + 1) ≤ maxR
          rw [hch] at hmax ⊢
          simp only [List.tail_cons]
          simp only [List.length_cons] at hmax
          omega
        obtain ⟨ha, hb⟩ := ih (removed + 1) maxR (dropFirstChip st) h1 h2
        exact ⟨ha, hb.trans (clearChips_dropFirstChip st)⟩
    · rename_i hcond
      have hch : st.ui.chips = [] := by
        rcases hch0 : st.ui.chips with _ | ⟨c, rest⟩
        · rfl
        · exfalso
          apply hcond
          constructor
          · rw [hch0]; simp
          · rw [hch0] at hmax
            simp only [List.length_cons] at hmax
            omega
      exact ⟨rfl, (clearChips_self st hch).symm⟩

/-- In an environment whose stop-sequence fills and Enter presses all
succeed, the insertion pass appends every requested sequence to the chip
row and returns normally. -/
theorem insertStops_clean (env : ParamsEnv)
    (hf : ∀ s, env.stopFillFails s = false) (hpr : ∀ s, env.stopPressFails s = false) :
    ∀ seqs st, (insertStops env seqs st).1 = .ok ()
      ∧ (insertStops env seqs st).2.1.ui.chips = st.ui.chips ++ seqs := by
  intro seqs
  induction seqs with
  | nil =>
    intro st
    exact ⟨rfl, (List.append_nil _).symm⟩
  | cons s rest ih =>
    intro st
    simp only [insertStops]
    refine chips_ite_false _ _ _ _ _ (hf s) ?_
    refine chips_withEv _ _ _ _ ?_
    refine chips_ite_false _ _ _ _ _ (hpr s) ?_
    refine chips_withEv _ _ _ _ (chips_withEv _ _ _ _ ?_)
    refine ⟨(ih (addChip s st)).1, ?_⟩
    rw [(ih (addChip s st)).2]
    show (st.ui.chips ++ [s]) ++ rest = st.ui.chips ++ (s :: rest)
    simp

/-- Forward composition through pseq once the first step succeeded. -/
theorem pseq_ok_forward (o : POut) (k : ParamsSt → POut) (h : o.1 = .ok ()) :
    (pseq o k).1 = (k o.2.1).1 ∧ (pseq o k).2.1 = (k o.2.1).2.1 := by
  rcases o with ⟨r, st, tr⟩
  cases r with
  | error e => exact absurd h (by simp)
  | ok u =>
    rcases hk : k st with ⟨r2, st2, tr2⟩
    simp [pseq, hk]

/-- Outcome and a state property pass through pseq when the first step
succeeded. -/
theorem pseq_clean (o : POut) (k : ParamsSt → POut) (r : Except PyErr Unit)
    (P : ParamsSt → Prop) (h1 : o.1 = .ok ())
    (h2 : (k o.2.1).1 = r ∧ P (k o.2.1).2.1) :
    (pseq o k).1 = r ∧ P (pseq o k).2.1 := by
  obtain ⟨ha, hb⟩ := pseq_ok_forward o k h1
  rw [ha, hb]
  exact h2

/-- A clean run of the stop-sequence try-block ends with the chip row
holding exactly the normalized requested sequences. -/
theorem stop_body_clean (env : ParamsEnv) (sp : StopParam) (st : ParamsSt)
    (hp : env.pred "停止序列清除 - 循环开始" = false)
    (hc : ∀ n, env.chipClickFails n = false)
    (hv : env.stopVisible = true)
    (hf : ∀ s, env.stopFillFails s = false)
    (hpr : ∀ s, env.stopPressFails s = false) :
    (adjust_stop_sequences_body env sp st).1 = .ok ()
    ∧ (adjust_stop_sequences_body env sp st).2.1.ui.chips = normalizeStopsList sp := by
  have hL := removeChipsGo_clean env hp hc (st.ui.chips.length + 5 - 0) 0
    (st.ui.chips.length + 5) st (by omega) (by omega)
  unfold adjust_stop_sequences_body removeChipsLoop
  refine chips_withEv _ _ _ _ ?_
  refine pseq_clean _ _ _ (fun s2 => s2.ui.chips = normalizeStopsList sp) hL.1 ?_
  rw [hL.2]
  refine pseq_clean _ _ _ (fun s3 => s3.ui.chips = normalizeStopsList sp) ?_ ?_
  · split
    · rfl
    · refine fst_withEv _ _ _ ?_
      rw [if_neg (by simp [hv])]
      exact (insertStops_clean env hf hpr (normalizeStopsList sp) (clearChips st)).1
  · refine ⟨rfl, ?_⟩
    split
    · rename_i hemp
      rcases hnl : normalizeStopsList sp with _ | ⟨a, l⟩
      · rfl
      · exact absurd (hnl ▸ hemp) (by simp)
    · rename_i hemp
      split
      · rename_i hvis
        simp [hv] at hvis
      · exact (insertStops_clean env hf hpr (normalizeStopsList sp) (clearChips st)).2

/-- A clean cache-miss run of _adjust_stop_sequences succeeds, leaves the
chip row holding exactly the normalized sequences, and commits the
normalized set to the cache. -/
theorem adjust_stop_sequences_clean (env : ParamsEnv) (sp : StopParam) (st : ParamsSt)
    (hp : env.pred "停止序列清除 - 循环开始" = false)
    (hc : ∀ n, env.chipClickFails n = false)
    (hv : env.stopVisible = true)
    (hf : ∀ s, env.stopFillFails s = false)
    (hpr : ∀ s, env.stopPressFails s = false)
    (hmiss : stopCacheHit st.cache (normalizeStops sp) = false) :
    (adjust_stop_sequences env sp st).1 = .ok ()
    ∧ (adjust_stop_sequences env sp st).2.1.ui.chips = normalizeStopsList sp
    ∧ (adjust_stop_sequences env sp st).2.1.cache.stop_sequences
        = some (normalizeStops sp) := by
  have hb := stop_body_clean env sp st hp hc hv hf hpr
  have hcommit := stop_body_ok_commit env sp st
  unfold adjust_stop_sequences
  rw [if_neg (by simp [hmiss])]
  rcases hbody : adjust_stop_sequences_body env sp st with ⟨r, s, tr⟩
  rw [hbody] at hb hcommit
  obtain ⟨hr, hchips⟩ := hb
  obtain rfl : r = .ok () := hr
  exact ⟨rfl, hchips, hcommit rfl⟩

/-- When the cache already holds the normalized requested set, the
routine returns at once: no trace at all, state untouched. -/
theorem adjust_stop_sequences_hit (env : ParamsEnv) (sp : StopParam) (st : ParamsSt)
    (h : st.cache.stop_sequences = some (normalizeStops sp)) :
    adjust_stop_sequences env sp st = (.ok (), st, []) := by
  have hhit : stopCacheHit st.cache (normalizeStops sp) = true := by
    unfold stopCacheHit
    rw [h]
    simp
  unfold adjust_stop_sequences
  rw [if_pos hhit]

/-- The normalized stop-sequence set does not depend on the order of the
requested list. -/
theorem normalizeStops_perm (l1 l2 : List String) (h : l1.Perm l2) :
    normalizeStops (.listVal l1) = normalizeStops (.listVal l2) := by
  have hperm := (h.map pyStrip).filter (fun t : String => decide (t ≠ ""))
  unfold normalizeStops normalizeStopsList
  ext a
  simp only [List.mem_toFinset, List.mem_dedup]
  exact hperm.mem_iff

/-- Claim C5 (confirmed): the synchronized stop-sequence set is the set
of whitespace-trimmed, non-empty, deduplicated strings of the request,
independent of input order (["a", "a", " b "] yields {"a","b"}); a clean
cache-miss run leaves the live chip row holding exactly the normalized
sequences and the cache holding the normalized set, and a second call
requesting the same set — against any environment — returns immediately
with an empty trace, so no UI interaction at all. -/
theorem c5_stop_normalization (env env2 : ParamsEnv) (l1 l2 : List String) (sp : StopParam)
    (st : ParamsSt)
    (hperm : l1.Perm l2)
    (hp : env.pred "停止序列清除 - 循环开始" = false)
    (hc : ∀ n, env.chipClickFails n = false)
    (hv : env.stopVisible = true)
    (hf : ∀ s, env.stopFillFails s = false)
    (hpr : ∀ s, env.stopPressFails s = false)
    (hmiss : stopCacheHit st.cache (normalizeStops sp) = false) :
    normalizeStops (.listVal l1) = normalizeStops (.listVal l2)
    ∧ normalizeStops (.listVal ["a", "a", " b "]) = (["a", "b"] : List String).toFinset
    ∧ (adjust_stop_sequences env sp st).1 = .ok ()
    ∧ (adjust_stop_sequences env sp st).2.1.ui.chips = normalizeStopsList sp
    ∧ (adjust_stop_sequences env sp st).2.1.cache.stop_sequences = some (normalizeStops sp)
    ∧ adjust_stop_sequences env2 sp (adjust_stop_sequences env sp st).2.1
        = (.ok (), (adjust_stop_sequences env sp st).2.1, []) := by
  obtain ⟨h1, h2, h3⟩ := adjust_stop_sequences_clean env sp st hp hc hv hf hpr hmiss
  exact ⟨normalizeStops_perm l1 l2 hperm, by decide, h1, h2, h3,
    adjust_stop_sequences_hit env2 sp _ h3⟩

/-- Witness for c5_stop_normalization: the benign environment, an empty
cache, and the requested list ["a"]. -/
theorem c5_witness :
    normalizeStops (.listVal ["b", "a", "a"]) = normalizeStops (.listVal ["a", "a", "b"])
    ∧ normalizeStops (.listVal ["a", "a", " b "]) = (["a", "b"] : List String).toFinset
    ∧ (adjust_stop_sequences envOk (.listVal ["a"]) stOk).1 = .ok ()
    ∧ (adjust_stop_sequences envOk (.listVal ["a"]) stOk).2.1.ui.chips
        = normalizeStopsList (.listVal ["a"])
    ∧ (adjust_stop_sequences envOk (.listVal ["a"]) stOk).2.1.cache.stop_sequences
        = some (normalizeStops (.listVal ["a"]))
    ∧ adjust_stop_sequences envOk (.listVal ["a"])
          (adjust_stop_sequences envOk (.listVal ["a"]) stOk).2.1
        = (.ok (), (adjust_stop_sequences envOk (.listVal ["a"]) stOk).2.1, []) :=
  c5_stop_normalization envOk envOk ["b", "a", "a"] ["a", "a", "b"] (.listVal ["a"]) stOk
    (by decide) rfl (fun _ => rfl) rfl (fun _ => rfl) (fun _ => rfl) rfl

/-- Whatever its body does after the leading visibility wait, a routine
wrapped by the shared handler always emits that wait: the trace of every
outcome class contains a UI interaction. -/
theorem pwHandler_trace_head (w : List Ev) (e : Ev) (o : POut) (a b : List Ev)
    (f g : ParamsSt → ParamsSt) (he : e.isUiInteraction = true) :
    (pwHandler w (withEv e o) a f b g).2.2.any Ev.isUiInteraction = true := by
  rcases o with ⟨r, s, tr⟩
  cases r with
  | ok u => simp [pwHandler, withEv, List.any_append, List.any_cons, he]
  | error err =>
    cases err <;> simp [pwHandler, withEv, List.any_append, List.any_cons, he]

/-- _adjust_top_p consults no cache: every call, in every environment
and from every state, performs a DOM interaction (at least the
visibility wait on the top-p input). -/
theorem adjust_top_p_always_reads (env : ParamsEnv) (p : ℚ) (st : ParamsSt) :
    (adjust_top_p env p st).2.2.any Ev.isUiInteraction = true := by
  unfold adjust_top_p adjust_top_p_body
  exact pwHandler_trace_head _ _ _ _ _ _ _ rfl

/-- Claim C6 (corrected): the cache short-circuit holds for the two
cached scalar fields — temperature (epsilon 0.001 against the clamped
value) and max output tokens (exact equality) — whose routines return
with the state untouched and at most a clamping warning in the trace (no
UI event); but top-p is not cached at all: every call, in every
environment, performs a UI interaction even when the live value already
equals the request (and the thinking-budget routines likewise take no
cache). -/
theorem c6_cache_short_circuit (env env2 env3 : ParamsEnv) (t : ℚ) (m : ℤ)
    (modelId : String) (models : List ModelEntry) (p : ℚ) (st st2 st3 : ParamsSt)
    (htemp : tempCacheHit st.cache (clampTemp t) = true)
    (hmax : maxCacheHit st2.cache (clampMaxTokens modelId models m) = true) :
    adjust_temperature env t st = (.ok (), st, tempWarnTr t)
    ∧ (tempWarnTr t).all (fun e => !e.isUiInteraction) = true
    ∧ adjust_max_tokens env2 m modelId models st2 = (.ok (), st2, maxWarnTr modelId models m)
    ∧ (maxWarnTr modelId models m).all (fun e => !e.isUiInteraction) = true
    ∧ (adjust_top_p env3 p st3).2.2.any Ev.isUiInteraction = true := by
  refine ⟨?_, ?_, ?_, ?_, adjust_top_p_always_reads env3 p st3⟩
  · unfold adjust_temperature
    rw [if_pos htemp]
  · unfold tempWarnTr
    split <;> rfl
  · unfold adjust_max_tokens
    rw [if_pos hmax]
  · unfold maxWarnTr
    split <;> rfl

/-- Claim C6 counterexample: the live top-p control already holds the
clamped requested value 1, yet the run still performs DOM interactions
(visibility wait and read) — the request is not short-circuited, because
_adjust_top_p has no cache; only the write is skipped. -/
theorem c6_counterexample :
    stOk.ui.topPValue = some (clampTopP 1)
    ∧ (adjust_top_p envOk 1 stOk).2.2.any Ev.isUiInteraction = true
    ∧ (adjust_top_p envOk 1 stOk).2.2.any Ev.isUiMutation = false :=
  ⟨rfl, rfl, rfl⟩

/-- A combined state whose cache already holds temperature 1 and max
output tokens 100. -/
def stC6 : ParamsSt :=
  { ui := uiOk,
    cache := { temperature := some 1, max_output_tokens := some 100, stop_sequences := none } }

/-- Witness for c6_cache_short_circuit: cache hits on temperature 1 and
max tokens 100, and the top-p interaction in the benign environment. -/
theorem c6_witness :
    adjust_temperature envOk 1 stC6 = (.ok (), stC6, tempWarnTr 1)
    ∧ (tempWarnTr 1).all (fun e => !e.isUiInteraction) = true
    ∧ adjust_max_tokens envOk 100 "" [] stC6 = (.ok (), stC6, maxWarnTr "" [] 100)
    ∧ (maxWarnTr "" [] 100).all (fun e => !e.isUiInteraction) = true
    ∧ (adjust_top_p envOk 1 stOk).2.2.any Ev.isUiInteraction = true :=
  c6_cache_short_circuit envOk envOk envOk 1 100 "" [] 1 stC6 stC6 stOk rfl rfl

/-- Events other than a click on the submit control. -/
def noSubmitClick (e : Ev) : Bool := e != Ev.clickCtrl "SUBMIT_BUTTON"

/-- An event recording a verification that ran to completion. -/
def isVerifyEv : Ev → Bool
  | .verifyResult _ => true
  | _ => false

/-- A predicate holding of every event of a submission outcome. -/
def STr (p : Ev → Bool) (o : SOut) : Prop := o.2.2.all p = true

theorem str_withSEv (p : Ev → Bool) (e : Ev) (o : SOut) (he : p e = true)
    (h : STr p o) : STr p (withSEv e o) := by
  obtain ⟨r, ui, tr⟩ := o
  simpa [STr, withSEv, he] using h

theorem str_sfail (p : Ev → Bool) (e : PyErr) (ui : SubmitUi) : STr p (sfail e ui) := by
  simp [STr, sfail]

theorem str_leaf (p : Ev → Bool) (r : Except PyErr Unit) (ui : SubmitUi) (evs : List Ev)
    (h : evs.all p = true) : STr p (r, ui, evs) := h

theorem str_sck (p : Ev → Bool) (pred : String → Bool) (stage : String) (ui : SubmitUi)
    (k : SubmitUi → SOut) (hc : ∀ b, p (.checkpoint stage b) = true)
    (h : ∀ ui2, STr p (k ui2)) : STr p (sck pred stage ui k) := by
  unfold sck
  split
  · simp [STr, hc]
  · exact str_withSEv p _ _ (hc false) (h ui)

theorem str_sseq (p : Ev → Bool) (o : SOut) (k : SubmitUi → SOut)
    (h1 : STr p o) (h2 : ∀ ui, STr p (k ui)) : STr p (sseq o k) := by
  obtain ⟨r, ui, tr⟩ := o
  cases r with
  | error e => exact h1
  | ok _ =>
    have h3 := h2 ui
    obtain ⟨r2, ui2, tr2⟩ := k ui
    simp only [STr, sseq, List.all_append]
    simp only [STr] at h1 h3
    simp [h1, h3]

/-- A predicate holding of every event of a shortcut attempt. -/
def TTr (p : Ev → Bool) (o : TOut) : Prop := o.2.2.all p = true

theorem ttr_withTEv (p : Ev → Bool) (e : Ev) (o : TOut) (he : p e = true)
    (h : TTr p o) : TTr p (withTEv e o) := by
  obtain ⟨b, ui, tr⟩ := o
  simpa [TTr, withTEv, he] using h

theorem ttr_leaf (p : Ev → Bool) (b : Bool) (ui : SubmitUi) (evs : List Ev)
    (h : evs.all p = true) : TTr p (b, ui, evs) := h

/-- The verification never clicks anything. -/
theorem shortcut_verify_noclick (env : SubmitEnv) (orig : String) (ui : SubmitUi) :
    (shortcut_verify env orig ui).2.all noSubmitClick = true := by
  unfold shortcut_verify
  split
  · rfl
  · split
    · rfl
    · split
      · rfl
      · split
        · rfl
        · rfl

theorem shortcut_after_press_noclick (env : SubmitEnv) (orig : String) (ui : SubmitUi) :
    TTr noSubmitClick (shortcut_after_press env orig ui) := by
  unfold shortcut_after_press
  split
  · exact ttr_leaf _ _ _ _ rfl
  · refine ttr_withTEv _ _ _ rfl (ttr_withTEv _ _ _ rfl ?_)
    rcases hsv : shortcut_verify env orig ui with ⟨b, tr⟩
    have h0 := shortcut_verify_noclick env orig ui
    rw [hsv] at h0
    exact ttr_leaf _ _ _ _ h0

/-- The chord-and-verify body never clicks the submit control (it
submits by keyboard chord only). -/
theorem try_shortcut_submit_core_noclick (env : SubmitEnv) (isMac : Bool) (ui : SubmitUi) :
    TTr noSubmitClick (try_shortcut_submit_core env isMac ui) := by
  unfold try_shortcut_submit_core
  split
  · exact ttr_leaf _ _ _ _ rfl
  · refine ttr_withTEv _ _ _ rfl ?_
    split
    · exact ttr_leaf _ _ _ _ rfl
    · refine ttr_withTEv _ _ _ rfl (ttr_withTEv _ _ _ rfl (ttr_withTEv _ _ _ rfl ?_))
      split
      · refine ttr_withTEv _ _ _ rfl ?_
        exact shortcut_after_press_noclick env _ _
      · split
        · refine ttr_withTEv _ _ _ rfl (ttr_withTEv _ _ _ rfl (ttr_withTEv _ _ _ rfl
            (ttr_withTEv _ _ _ rfl (ttr_withTEv _ _ _ rfl ?_))))
          exact shortcut_after_press_noclick env _ _
        · exact ttr_leaf _ _ _ _ rfl

/-- The whole shortcut attempt never clicks the submit control. -/
theorem try_shortcut_submit_noclick (env : SubmitEnv) (ui : SubmitUi) :
    TTr noSubmitClick (try_shortcut_submit env ui) := by
  unfold try_shortcut_submit
  rcases hd : detect_is_mac env with e | isMac
  · exact ttr_leaf _ _ _ _ rfl
  · exact try_shortcut_submit_core_noclick env isMac ui

/-- When the verification read raises (unguarded method 1), the
enclosing except yields success without a completed verification. -/
theorem shortcut_after_press_verify_raise (env : SubmitEnv) (orig : String) (ui : SubmitUi)
    (hck2 : env.pred "After Shortcut Press" = false)
    (hver : env.verifyReadOk = false) :
    (shortcut_after_press env orig ui).1 = true
    ∧ (shortcut_after_press env orig ui).2.2.any (fun e => e == Ev.verifyResult true) = false := by
  have hsv : shortcut_verify env orig ui = (true, [.readValue "PROMPT_TEXTAREA"]) := by
    unfold shortcut_verify
    rw [if_pos (by simp [hver])]
  unfold shortcut_after_press
  rw [if_neg (by simp [hck2]), hsv]
  exact ⟨rfl, rfl⟩

/-- Under a quiet predicate, working focus and chord, and a raising
verification read, the shortcut attempt reports success from every
page state. -/
theorem try_shortcut_submit_ok_of_verify_raise (env : SubmitEnv) (b : Bool)
    (hm : detect_is_mac env = .ok b)
    (hfocus : env.focusOk = true)
    (hck1 : env.pred "After Input Focus" = false)
    (hpress : env.pressOk = true)
    (hck2 : env.pred "After Shortcut Press" = false)
    (hver : env.verifyReadOk = false) :
    ∀ ui0, (try_shortcut_submit env ui0).1 = true := by
  intro ui0
  unfold try_shortcut_submit
  simp only [hm]
  unfold try_shortcut_submit_core
  rw [if_neg (by simp [hfocus]), if_neg (by simp [hck1]), if_pos hpress]
  exact (shortcut_after_press_verify_raise env _ _ hck2 hver).1

/-- The Upload Orchestrator never clicks the submit control (its clicks
target the function button, upload buttons and the copyright dialog). -/
theorem upload_noclick (uenv : UploadEnv) :
    (upload_files_with_diagnostics uenv).2.all noSubmitClick = true := by
  rcases uenv with ⟨f, d, c, g, cp⟩
  rcases f with ⟨_ | _⟩ | _ <;> rcases d with ⟨_ | _⟩ | _ <;> rcases c with ⟨_ | _⟩ | _ <;>
    rcases g with ⟨_ | _⟩ | _ <;> rcases cp with _ | _ <;> rfl

theorem submit_wait_enable_raw_noclick (env : SubmitEnv) (ui : SubmitUi) :
    STr noSubmitClick (submit_wait_enable_raw env ui) := by
  unfold submit_wait_enable_raw
  split
  · exact str_leaf _ _ _ _ rfl
  · refine str_withSEv _ _ _ rfl (str_withSEv _ _ _ rfl ?_)
    split
    · exact str_sfail _ _ _
    · exact str_leaf _ _ _ _ rfl

theorem submit_wait_enable_noclick (env : SubmitEnv) (ui : SubmitUi) :
    STr noSubmitClick (submit_wait_enable env ui) := by
  have h0 := submit_wait_enable_raw_noclick env ui
  unfold submit_wait_enable
  rcases hE : submit_wait_enable_raw env ui with ⟨r, ui2, tr⟩
  rw [hE] at h0
  simp only [STr] at h0
  cases r with
  | ok u => exact str_leaf _ _ _ _ h0
  | error e =>
    refine str_leaf _ _ _ _ ?_
    simp [List.all_append, h0, noSubmitClick]

theorem submit_click_fallback_submitted (env : SubmitEnv) (ui : SubmitUi) :
    submit_click_fallback env true ui = (.ok (), ui, []) := rfl

theorem submit_after_click_noclick (env : SubmitEnv) (trS trC : List Ev) (ui3 : SubmitUi)
    (hS : trS.all noSubmitClick = true) (hC : trC.all noSubmitClick = true) :
    STr noSubmitClick (submit_after_click env trS trC ui3) := by
  have h4 : STr noSubmitClick
      (sck env.pred "After Submit" ui3 (fun ui4 => ((.ok (), ui4, []) : SOut))) := by
    refine str_sck _ _ _ _ _ (fun b2 => by cases b2 <;> rfl) ?_
    intro ui5
    exact str_leaf _ _ _ _ rfl
  unfold submit_after_click
  rcases hsck : sck env.pred "After Submit" ui3 (fun ui4 => ((.ok (), ui4, []) : SOut))
    with ⟨rk, ui4, trK⟩
  rw [hsck] at h4
  simp only [STr] at h4
  refine str_leaf _ _ _ _ ?_
  simp [List.all_append, hS, hC, h4]

/-- Once the shortcut reported success, the tail of submit_prompt adds
no submit-button click: the fallback branch is skipped. -/
theorem submit_click_tail_submitted (env : SubmitEnv) (ui2 : SubmitUi) (trS : List Ev)
    (hclean : trS.all noSubmitClick = true) :
    STr noSubmitClick (submit_click_tail env true ui2 trS) := by
  unfold submit_click_tail
  rw [submit_click_fallback_submitted]
  exact submit_after_click_noclick env trS [] ui2 hclean rfl

theorem submit_click_step_shortcut_ok (env : SubmitEnv) (ui : SubmitUi)
    (hsub : (try_shortcut_submit env ui).1 = true) :
    STr noSubmitClick (submit_click_step env ui) := by
  unfold submit_click_step
  rcases hts : try_shortcut_submit env ui with ⟨submitted, ui2, trS⟩
  have hclean : trS.all noSubmitClick = true := by
    have h0 := try_shortcut_submit_noclick env ui
    rw [hts] at h0
    exact h0
  obtain rfl : submitted = true := by rw [hts] at hsub; exact hsub
  exact submit_click_tail_submitted env ui2 trS hclean

/-- When the shortcut attempt reports success from every state, the
whole submission body emits no submit-button click. -/
theorem submit_prompt_body_noclick (env : SubmitEnv) (prompt : String) (n : Nat)
    (ui : SubmitUi) (hsub : ∀ ui0, (try_shortcut_submit env ui0).1 = true) :
    STr noSubmitClick (submit_prompt_body env prompt n ui) := by
  unfold submit_prompt_body
  refine str_withSEv _ _ _ rfl ?_
  split
  · exact str_sfail _ _ _
  · refine str_sck _ _ _ _ _ (fun b2 => by cases b2 <;> rfl) ?_
    intro ui1
    split
    · exact str_sfail _ _ _
    · refine str_withSEv _ _ _ rfl ?_
      split
      · exact str_sfail _ _ _
      · refine str_withSEv _ _ _ rfl ?_
        refine str_sck _ _ _ _ _ (fun b2 => by cases b2 <;> rfl) ?_
        intro ui2
        refine str_sseq _ _ _ ?_ ?_
        · split
          · rcases hu : upload_files_with_diagnostics env.upload with ⟨r0, tr0⟩
            have h0 := upload_noclick env.upload
            rw [hu] at h0
            exact str_leaf _ _ _ _ h0
          · exact str_leaf _ _ _ _ rfl
        · intro ui3
          refine str_sseq _ _ _ (submit_wait_enable_noclick env ui3) ?_
          intro ui4
          refine str_sck _ _ _ _ _ (fun b2 => by cases b2 <;> rfl) ?_
          intro ui5
          refine str_withSEv _ _ _ rfl ?_
          exact submit_click_step_shortcut_ok env ui5 (hsub ui5)

/-- When the shortcut attempt reports success from every state, the
whole submission — handler included — emits no submit-button click. -/
theorem submit_prompt_noclick (env : SubmitEnv) (prompt : String) (n : Nat) (ui : SubmitUi)
    (hsub : ∀ ui0, (try_shortcut_submit env ui0).1 = true) :
    (submit_prompt env prompt n ui).2.2.all noSubmitClick = true := by
  have hbody := submit_prompt_body_noclick env prompt n ui hsub
  unfold submit_prompt
  rcases hb : submit_prompt_body env prompt n ui with ⟨r, ui2, tr⟩
  rw [hb] at hbody
  simp only [STr] at hbody
  cases r with
  | ok u => exact hbody
  | error e =>
    cases e <;> simp [List.all_append, hbody, noSubmitClick]

/-- Claim C8 (corrected): when the verification read raises (the
unguarded method-1 read, env.verifyReadOk = false), the shortcut
attempt's enclosing except treats the submission as successful —
shortcut_after_press returns true with no completed-verification event,
try_shortcut_submit returns true from every page state, and the whole
submission emits no submit-button click, so the fallback is not
attempted.  (The claim's converse — that the fallback runs only after a
completed failed verification — is refuted by c8_counterexample.) -/
theorem c8_shortcut_verification (env : SubmitEnv) (b : Bool) (orig : String)
    (prompt : String) (n : Nat) (ui uiv : SubmitUi)
    (hm : detect_is_mac env = .ok b)
    (hfocus : env.focusOk = true)
    (hck1 : env.pred "After Input Focus" = false)
    (hpress : env.pressOk = true)
    (hck2 : env.pred "After Shortcut Press" = false)
    (hver : env.verifyReadOk = false) :
    (shortcut_after_press env orig uiv).1 = true
    ∧ (shortcut_after_press env orig uiv).2.2.any (fun e => e == Ev.verifyResult true) = false
    ∧ (∀ ui0, (try_shortcut_submit env ui0).1 = true)
    ∧ (submit_prompt env prompt n ui).2.2.all noSubmitClick = true := by
  obtain ⟨h1, h2⟩ := shortcut_after_press_verify_raise env orig uiv hck2 hver
  have h3 := try_shortcut_submit_ok_of_verify_raise env b hm hfocus hck1 hpress hck2 hver
  exact ⟨h1, h2, h3, submit_prompt_noclick env prompt n ui h3⟩

/-- A benign upload environment. -/
def uploadEnvOk : UploadEnv :=
  { findClickOutcome := .ok true, directOutcome := .ok true, chooserOutcome := .ok true,
    dragDropOutcome := .ok true, copyrightFound := false }

/-- A fixed page state for submission runs. -/
def subUiC8 : SubmitUi :=
  { promptContent := "", submitDisabled := false, responseCount := 0,
    lastResponseVisible := false }

/-- A submission environment in which focusing the prompt textarea
raises, so the shortcut attempt bails out before any verification. -/
def subEnvNoFocus : SubmitEnv :=
  { pred := fun _ => false, promptVisible := true, fillEvalOk := true, attrEvalOk := true,
    hostOs := some "Darwin", platformEvalOk := true, platformStr := "MacIntel",
    uaEvalOk := true, userAgent := "x", focusOk := false, origReadOk := true, pressOk := true,
    pressFallbackOk := true, contentAfterPress := "", verifyReadOk := true,
    btnDisabledCheckOk := true, containerCountOk := true, lastVisibleCheckOk := true,
    submitEnabledOk := true, submitClickOk := true, upload := uploadEnvOk }

/-- Claim C8 counterexample: with a failing focus step the shortcut
attempt returns false without ever reaching verification, and the
submission then uses the button-click fallback — the trace contains the
submit-button click but no verification event at all, refuting "the
click fallback is used only when verification completes and reports
failure". -/
theorem c8_counterexample :
    try_shortcut_submit subEnvNoFocus subUiC8 = (false, subUiC8, [])
    ∧ (submit_prompt subEnvNoFocus "hi" 0 subUiC8).2.2.any
        (fun e => e == Ev.clickCtrl "SUBMIT_BUTTON") = true
    ∧ (submit_prompt subEnvNoFocus "hi" 0 subUiC8).2.2.any isVerifyEv = false :=
  ⟨rfl, rfl, rfl⟩

/-- The focus-ok variant of the submission environment whose
verification read raises. -/
def subEnvVerifyRaise : SubmitEnv :=
  { subEnvNoFocus with focusOk := true, verifyReadOk := false }

/-- Witness for c8_shortcut_verification: a concrete environment whose
verification read raises. -/
theorem c8_witness :
    (shortcut_after_press subEnvVerifyRaise "x" subUiC8).1 = true
    ∧ (shortcut_after_press subEnvVerifyRaise "x" subUiC8).2.2.any
        (fun e => e == Ev.verifyResult true) = false
    ∧ (∀ ui0, (try_shortcut_submit subEnvVerifyRaise ui0).1 = true)
    ∧ (submit_prompt subEnvVerifyRaise "hi" 0 subUiC8).2.2.all noSubmitClick = true :=
  c8_shortcut_verification subEnvVerifyRaise true "x" "hi" 0 subUiC8 subUiC8
    rfl rfl rfl rfl rfl rfl

/-- The Upload Orchestrator returns normally on every input: its
enclosing try/except logs and swallows every failure. -/
theorem upload_never_raises (uenv : UploadEnv) :
    (upload_files_with_diagnostics uenv).1 = .ok () := by
  rcases uenv with ⟨f, d, c, g, cp⟩
  rcases f with ⟨_ | _⟩ | _ <;> rcases d with ⟨_ | _⟩ | _ <;> rcases c with ⟨_ | _⟩ | _ <;>
    rcases g with ⟨_ | _⟩ | _ <;> rcases cp with _ | _ <;> rfl

/-- A benign submission environment around an arbitrary upload
environment. -/
def subEnvOkWith (uenv : UploadEnv) : SubmitEnv :=
  { pred := fun _ => false, promptVisible := true, fillEvalOk := true, attrEvalOk := true,
    hostOs := some "Darwin", platformEvalOk := true, platformStr := "MacIntel",
    uaEvalOk := true, userAgent := "x", focusOk := true, origReadOk := true, pressOk := true,
    pressFallbackOk := true, contentAfterPress := "", verifyReadOk := true,
    btnDisabledCheckOk := true, containerCountOk := true, lastVisibleCheckOk := true,
    submitEnabledOk := true, submitClickOk := true, upload := uenv }

/-- With payload files present, the submission succeeds whatever the
upload environment does: upload failures never propagate. -/
theorem submit_proceeds_prompt_only (uenv : UploadEnv) :
    (submit_prompt (subEnvOkWith uenv) "hi" 1 subUiC8).1 = .ok () := by
  rcases uenv with ⟨f, d, c, g, cp⟩
  rcases f with ⟨_ | _⟩ | _ <;> rcases d with ⟨_ | _⟩ | _ <;> rcases c with ⟨_ | _⟩ | _ <;>
    rcases g with ⟨_ | _⟩ | _ <;> rcases cp with _ | _ <;> rfl

/-- The upload environment in which every strategy reports failure. -/
def uenvFail : UploadEnv :=
  { findClickOutcome := .ok true, directOutcome := .ok false, chooserOutcome := .ok false,
    dragDropOutcome := .ok false, copyrightFound := false }

/-- Claim C9 (confirmed): the upload orchestration returns normally on
every input; with files present the enclosing submission succeeds under
every upload environment; and when every strategy fails the failure is
only logged (upload_all_failed) while the prompt is still submitted (the
submission chord appears after the failed upload). -/
theorem c9_upload_never_fatal :
    (∀ uenv, (upload_files_with_diagnostics uenv).1 = .ok ())
    ∧ (∀ uenv, (submit_prompt (subEnvOkWith uenv) "hi" 1 subUiC8).1 = .ok ())
    ∧ (submit_prompt (subEnvOkWith uenvFail) "hi" 1 subUiC8).2.2.any
        (fun e => e == Ev.logErr "upload_all_failed") = true
    ∧ (submit_prompt (subEnvOkWith uenvFail) "hi" 1 subUiC8).2.2.any
        (fun e => e == Ev.pressKey "keyboard" "Meta+Enter") = true :=
  ⟨upload_never_raises, submit_proceeds_prompt_only, rfl, rfl⟩

/-- A disappearance poll of the clear-confirmation dialog. -/
def isWaitHidden : Ev → Bool
  | .waitHidden _ => true
  | _ => false

theorem cwh_withCEv (e : Ev) (o : COut) (n : Nat) (he : isWaitHidden e = false)
    (h : o.2.countP isWaitHidden ≤ n) :
    (withCEv e o).2.countP isWaitHidden ≤ n := by
  have heq : (withCEv e o).2.countP isWaitHidden = o.2.countP isWaitHidden := by
    obtain ⟨r, tr⟩ := o
    simp [withCEv, List.countP_cons, he]
  rw [heq]
  exact h

theorem cwh_withCEv_hit (e : Ev) (o : COut) (n : Nat) (he : isWaitHidden e = true)
    (h : o.2.countP isWaitHidden ≤ n) :
    (withCEv e o).2.countP isWaitHidden ≤ n + 1 := by
  have heq : (withCEv e o).2.countP isWaitHidden = o.2.countP isWaitHidden + 1 := by
    obtain ⟨r, tr⟩ := o
    simp [withCEv, List.countP_cons, he]
  rw [heq]
  exact Nat.add_le_add_right h 1

theorem cwh_cck (pred : String → Bool) (stage : String) (k : Unit → COut) (n : Nat)
    (h : (k ()).2.countP isWaitHidden ≤ n) :
    (cck pred stage k).2.countP isWaitHidden ≤ n := by
  unfold cck
  split
  · exact Nat.zero_le n
  · exact cwh_withCEv _ _ _ rfl h

theorem cwh_cseq (o : COut) (k : Unit → COut) (n m : Nat)
    (h1 : o.2.countP isWaitHidden ≤ n) (h2 : (k ()).2.countP isWaitHidden ≤ m) :
    (cseq o k).2.countP isWaitHidden ≤ n + m := by
  obtain ⟨r, tr⟩ := o
  cases r with
  | error e => exact Nat.le_trans h1 (Nat.le_add_right n m)
  | ok u =>
    rcases hk : k () with ⟨r2, tr2⟩
    rw [hk] at h2
    have h1' : tr.countP isWaitHidden ≤ n := h1
    have h2' : tr2.countP isWaitHidden ≤ m := h2
    simp only [cseq]
    rw [hk]
    show (tr ++ tr2).countP isWaitHidden ≤ n + m
    simp only [List.countP_append]
    omega

/-- The disappearance loop polls at most once per remaining attempt. -/
theorem clear_loop_waitHidden_bound (env : ClearEnv) :
    ∀ l, (clear_disappear_loop env l).2.countP isWaitHidden ≤ l.length := by
  intro l
  induction l with
  | nil => exact Nat.le_refl 0
  | cons a rest ih =>
    simp only [clear_disappear_loop]
    refine cwh_withCEv_hit _ _ _ rfl ?_
    rcases hd : env.disappear a with _ | _ | _
    · exact Nat.zero_le _
    · refine cwh_withCEv _ _ _ rfl ?_
      split
      · refine cwh_withCEv _ _ _ rfl ?_
        split
        · exact Nat.zero_le _
        · refine cwh_withCEv _ _ _ rfl ?_
          exact ih
      · exact Nat.zero_le _
    · refine cwh_withCEv _ _ _ rfl ?_
      split
      · refine cwh_withCEv _ _ _ rfl ?_
        exact ih
      · exact Nat.zero_le _

/-- The whole clear operation performs at most 3 disappearance polls,
whatever the environment does. -/
theorem execute_chat_clear_bound (env : ClearEnv) :
    (execute_chat_clear env).2.countP isWaitHidden ≤ 3 := by
  unfold execute_chat_clear
  refine cwh_withCEv _ _ _ rfl ?_
  refine cwh_cck _ _ _ _ ?_
  refine cwh_cseq _ _ 0 3 ?_ ?_
  · split
    · split
      · exact Nat.zero_le 0
      · exact Nat.zero_le 0
    · split
      · exact Nat.zero_le 0
      · refine cwh_withCEv _ _ _ rfl ?_
        refine cwh_cck _ _ _ _ ?_
        refine cwh_withCEv _ _ _ rfl ?_
        split
        · exact Nat.zero_le 0
        · refine cwh_cck _ _ _ _ ?_
          split
          · exact Nat.zero_le 0
          · exact Nat.zero_le 0
  · refine cwh_cck _ _ _ _ ?_
    exact clear_loop_waitHidden_bound env [0, 1, 2]

/-- A clear environment in which every disappearance poll times out. -/
def clearEnvTimeout : ClearEnv :=
  { pred := fun _ => false, overlayInitiallyVisible := false, clearClickOk := true,
    confirmClickOk := true, overlayAppears := true, disappear := fun _ => .timeout }

/-- Claim C10 (confirmed): after the confirm click the reset controller
polls for disappearance at most 3 times in every environment, and in the
all-timeout run it polls exactly 3 times with exactly two 1-second
backoffs, captures the diagnostic snapshot, and raises — the clear
operation is fatal once the explicit bound is exhausted. -/
theorem c10_clear_retry_bound :
    (∀ env, (execute_chat_clear env).2.countP isWaitHidden ≤ 3)
    ∧ (execute_chat_clear clearEnvTimeout).1
        = .error (.otherError "clear dialog did not disappear")
    ∧ (execute_chat_clear clearEnvTimeout).2.countP isWaitHidden = 3
    ∧ (execute_chat_clear clearEnvTimeout).2.countP (fun e => e == Ev.sleepMs 1000) = 2
    ∧ (execute_chat_clear clearEnvTimeout).2.any
        (fun e => e == Ev.snapshot "clear_chat_dialog_disappear_timeout") = true :=
  ⟨execute_chat_clear_bound, rfl, rfl, rfl, rfl⟩
